import Mathlib

/-!
The leak tracer of SlicerRT (`LeakFinder/vtkLeakFinder.cxx`).

A shallow embedding of `vtkLeakFinder` and of its internal `vtkLeakFinderObserver`.

* Object addresses (`vtkObjectBase*`) are natural numbers; the tracked map
  `std::map<vtkObjectBase*, std::vector<std::string> >` is an association list in strictly
  ascending address order.
* An observer pointer (`vtkDebugLeaksObserver*`) is `Option ObserverRef`: `none` is `NULL`,
  `some .leakFinder` is the tracer's own observer, `some (.other p)` any other observer.
* The host runtime is state passed explicitly (`World`): the static observer slot of
  `vtkDebugLeaks`, the files written so far, and the callbacks other observers received.
* The external stack walker reports a call stack by calling `OnOutput` once per buffer;
  the buffers of each walk come with the lifecycle event.
* A callback that forwards to the saved previous observer may call itself again; such
  callbacks take a fuel argument and yield `none` when the fuel is used up.
-/

namespace LeakFinder

/-- A non-NULL `vtkDebugLeaksObserver*`: the tracer's own observer or some other one. -/
inductive ObserverRef where
  | leakFinder
  | other (id : Nat)
  deriving DecidableEq, Repr

/-- The four callbacks of the (patched) `vtkDebugLeaksObserver` interface, with the object. -/
inductive Callback where
  | ConstructingObject (o : Nat)
  | DestructingObject (o : Nat)
  | RegisteringObject (o : Nat)
  | UnregisteringObject (o : Nat)
  deriving DecidableEq, Repr

/-- A lifecycle event raised by the host runtime. `frames` are the buffers the stack walker
hands to `OnOutput` if it is asked for the call stack while the event is handled. -/
inductive Event where
  | construct (o : Nat) (frames : List String)
  | destruct (o : Nat)
  | register (o : Nat) (frames : List String)
  | unregister (o : Nat) (frames : List String)
  deriving DecidableEq, Repr

/-- The callback an event turns into. -/
def Event.callback : Event → Callback
  | .construct o _ => .ConstructingObject o
  | .destruct o => .DestructingObject o
  | .register o _ => .RegisteringObject o
  | .unregister o _ => .UnregisteringObject o

/-- The object an event is about. -/
def Event.object : Event → Nat
  | .construct o _ => o
  | .destruct o => o
  | .register o _ => o
  | .unregister o _ => o

/-! ## `std::map<vtkObjectBase*, std::vector<std::string> >` -/

/-- Use of `m[o]` as an lvalue, on the sequence of (address, traces) pairs in iteration
order: `operator[]` inserts an empty vector at the ordered position when `o` has no entry,
and `f` is what is then done to the referenced vector. -/
def rawSubscript : List (Nat × List String) → Nat → (List String → List String) →
    List (Nat × List String)
  | [], o, f => [(o, f [])]
  | (k, v) :: rest, o, f =>
    if o < k then (o, f []) :: (k, v) :: rest
    else if o = k then (k, f v) :: rest
    else (k, v) :: rawSubscript rest o f

/-- The addresses of `rawSubscript` are `o` and the ones there were. -/
theorem mem_keys_rawSubscript (l : List (Nat × List String)) (o : Nat)
    (f : List String → List String) (x : Nat) :
    x ∈ (rawSubscript l o f).map Prod.fst ↔ x = o ∨ x ∈ l.map Prod.fst := by
  induction l with
  | nil => simp [rawSubscript]
  | cons e rest ih =>
    obtain ⟨k, v⟩ := e
    unfold rawSubscript
    by_cases h1 : o < k
    · simp [h1]
    · by_cases h2 : o = k
      · subst h2
        simp
      · simp only [h1, h2, if_false, List.map_cons, List.mem_cons, ih]
        tauto

/-- The ordered insertion keeps the addresses strictly ascending. -/
theorem rawSubscript_ascending (l : List (Nat × List String)) (o : Nat)
    (f : List String → List String) (hl : (l.map Prod.fst).Pairwise (· < ·)) :
    ((rawSubscript l o f).map Prod.fst).Pairwise (· < ·) := by
  induction l with
  | nil => simp [rawSubscript]
  | cons e rest ih =>
    obtain ⟨k, v⟩ := e
    simp only [List.map_cons, List.pairwise_cons] at hl
    unfold rawSubscript
    by_cases h1 : o < k
    · simp only [h1, if_true, List.map_cons, List.pairwise_cons, List.mem_cons]
      refine ⟨?_, hl.1, hl.2⟩
      intro x hx
      rcases hx with hx | hx
      · exact hx ▸ h1
      · exact Nat.lt_trans h1 (hl.1 x hx)
    · by_cases h2 : o = k
      · subst h2
        simp only [lt_self_iff_false, if_false, if_true, List.map_cons, List.pairwise_cons]
        exact hl
      · simp only [h1, h2, if_false, List.map_cons, List.pairwise_cons]
        refine ⟨?_, ih hl.2⟩
        intro x hx
        rcases (mem_keys_rawSubscript rest o f x).1 hx with hx | hx
        · omega
        · exact hl.1 x hx

/-- The tracked map: (address, traces) pairs in iteration order, addresses strictly
ascending as in every `std::map` keyed by pointers. -/
def TraceMap : Type :=
  { l : List (Nat × List String) // (l.map Prod.fst).Pairwise (· < ·) }

instance : DecidableEq TraceMap :=
  inferInstanceAs (DecidableEq { l : List (Nat × List String) //
    (l.map Prod.fst).Pairwise (· < ·) })

instance : Repr TraceMap := ⟨fun m n => reprPrec m.1 n⟩

namespace TraceMap

/-- The empty map (`clear()` on construction). -/
def empty : TraceMap := ⟨[], List.Pairwise.nil⟩

/-- The (address, traces) pairs in iteration order, `begin()` to `end()`. -/
def entries (m : TraceMap) : List (Nat × List String) := m.1

/-- The addresses with an entry, in iteration order. -/
def keys (m : TraceMap) : List Nat := m.1.map Prod.fst

/-- Lookup on the sequence of pairs. -/
def rawFind : List (Nat × List String) → Nat → Option (List String)
  | [], _ => none
  | (k, v) :: rest, o => if o = k then some v else rawFind rest o

/-- Lookup (`std::map::find`): the traces stored for `o`, if `o` has an entry. -/
def find (m : TraceMap) (o : Nat) : Option (List String) := rawFind m.1 o

/-- Use of `m[o]` as an lvalue, see `rawSubscript`. -/
def subscript (m : TraceMap) (o : Nat) (f : List String → List String) : TraceMap :=
  ⟨rawSubscript m.1 o f, rawSubscript_ascending m.1 o f m.2⟩

/-- Removal by key (`std::map::erase(key)`): removes the elements whose key is `o`. -/
def erase (m : TraceMap) (o : Nat) : TraceMap :=
  ⟨m.1.filter (fun e => decide (e.1 ≠ o)),
    m.2.sublist ((List.filter_sublist m.1).map Prod.fst)⟩

end TraceMap

/-! ## `StackWalkerStringOutput` -/

/-- Stack walker that collects the call stack in a string. -/
structure StackWalkerStringOutput where
  m_LastStackTraceString : String
  deriving DecidableEq, Repr

namespace StackWalkerStringOutput

/-- Constructor. -/
def new : StackWalkerStringOutput := { m_LastStackTraceString := "" }

/-- Returns the last stack trace string and clears it. -/
def GetLastStackTraceString (sw : StackWalkerStringOutput) :
    String × StackWalkerStringOutput :=
  (sw.m_LastStackTraceString, { sw with m_LastStackTraceString := "" })

/-- Appends one call stack element to the output string. -/
def OnOutput (sw : StackWalkerStringOutput) (buffer : String) : StackWalkerStringOutput :=
  { sw with m_LastStackTraceString := sw.m_LastStackTraceString ++ buffer }

/-- The walk of the external `StackWalker::ShowCallstack`: one `OnOutput` per buffer. -/
def ShowCallstack (sw : StackWalkerStringOutput) (frames : List String) :
    StackWalkerStringOutput :=
  frames.foldl OnOutput sw

end StackWalkerStringOutput

/-! ## State -/

/-- What the host provides to format a report line: how a pointer prints on a stream with
hexadecimal base field, and the runtime class name (`GetClassName`) of the object at an
address. -/
structure Host where
  pointerText : Nat → String
  GetClassName : Nat → String

/-- The members of the one `vtkLeakFinderObserver` owned by the `vtkLeakFinder`, together
with the host state it reads and writes. -/
structure World where
  /-- Stack walker object that extracts the call stack. -/
  m_StackWalker : StackWalkerStringOutput
  /-- Map containing the constructed objects and their call stacks. -/
  m_ObjectTraceEntries : TraceMap
  /-- Previously set debug leaks observer. -/
  m_OldDebugLeakObserver : Option ObserverRef
  /-- Output file name used when saving the leak report. -/
  m_OutputFileName : String
  /-- Flag whether Register and Unregister calls are traced. -/
  m_TraceRegisterAndUnregister : Bool
  /-- The static observer slot of `vtkDebugLeaks`. -/
  DebugLeaksObserver : Option ObserverRef
  /-- Every file written so far, oldest first: name and the text streamed into it. -/
  files : List (String × String)
  /-- Every callback received by an observer other than the tracer's, oldest first. -/
  received : List (Nat × Callback)
  deriving DecidableEq, Repr

/-- The message `GetLeakReport` returns while the observer is still connected. -/
def cannotGetReport : String :=
  "Cannot get report while running. Observer needs to be disconnected (vtkLeakFinder::EndTracing called) first."

/-- Header of a construction trace. -/
def constructHeader : String := "----Construct stack trace----\n"

/-- Header of a registration trace. -/
def registerHeader : String := "----Register stack trace-----\n"

/-- Header of an unregistration trace. -/
def unregisterHeader : String := "----Unregister stack trace---\n"

namespace vtkDebugLeaks

/-- Static getter of the observer slot. -/
def GetDebugLeaksObserver (w : World) : Option ObserverRef := w.DebugLeaksObserver

/-- Static setter of the observer slot. -/
def SetDebugLeaksObserver (w : World) (observer : Option ObserverRef) : World :=
  { w with DebugLeaksObserver := observer }

end vtkDebugLeaks

namespace vtkLeakFinderObserver

/-- Constructor (lines 78-88): empty map, fresh stack walker, no saved observer, default
file name from the current date and time `dateTime` (as `GetCurrentDateTime` returned it
for the format `%Y%m%d_%H%M%S`), register/unregister tracing on. The host state is the
one the tracer is created in. -/
def new (dateTime : String) (installed : Option ObserverRef) : World :=
  { m_StackWalker := StackWalkerStringOutput.new
    m_ObjectTraceEntries := TraceMap.empty
    m_OldDebugLeakObserver := none
    m_OutputFileName := "./trace_" ++ dateTime ++ ".log"
    m_TraceRegisterAndUnregister := true
    DebugLeaksObserver := installed
    files := []
    received := [] }

/-- The tracer's own work in `ConstructingObject` (lines 111-117). -/
def recordConstruct (w : World) (o : Nat) (frames : List String) : World :=
  let walked := w.m_StackWalker.ShowCallstack frames
  let last := walked.GetLastStackTraceString
  let stackTraceVector : List String := [] ++ [constructHeader ++ last.1]
  { w with
    m_StackWalker := last.2
    m_ObjectTraceEntries := w.m_ObjectTraceEntries.subscript o (fun _ => stackTraceVector) }

/-- Callback called every time a class is instantiated (lines 109-123). -/
def ConstructingObject : Nat → World → Nat → List String → Option World
  | 0, _, _, _ => none
  | fuel + 1, w, o, frames =>
    let w1 := recordConstruct w o frames
    match w1.m_OldDebugLeakObserver with
    | none => some w1
    | some (.other p) =>
      some { w1 with received := w1.received ++ [(p, Callback.ConstructingObject o)] }
    | some .leakFinder => ConstructingObject fuel w1 o frames

/-- The tracer's own work in `DestructingObject` (lines 128-129). -/
def recordDestruct (w : World) (o : Nat) : World :=
  let cleared := w.m_ObjectTraceEntries.subscript o (fun _ => [])
  { w with m_ObjectTraceEntries := cleared.erase o }

/-- Callback called every time a class is deleted (lines 126-135). -/
def DestructingObject : Nat → World → Nat → Option World
  | 0, _, _ => none
  | fuel + 1, w, o =>
    let w1 := recordDestruct w o
    match w1.m_OldDebugLeakObserver with
    | none => some w1
    | some (.other p) =>
      some { w1 with received := w1.received ++ [(p, Callback.DestructingObject o)] }
    | some .leakFinder => DestructingObject fuel w1 o

/-- Callback called upon registering an object (lines 154-170); the forwarding to the
previous observer is commented out in the source. -/
def RegisteringObject (w : World) (o : Nat) (frames : List String) : World :=
  if w.m_TraceRegisterAndUnregister then
    let walked := w.m_StackWalker.ShowCallstack frames
    let last := walked.GetLastStackTraceString
    let registeringStackTrace := registerHeader ++ last.1
    { w with
      m_StackWalker := last.2
      m_ObjectTraceEntries :=
        w.m_ObjectTraceEntries.subscript o (fun v => v ++ [registeringStackTrace]) }
  else w

/-- Callback called upon unregistering an object (lines 175-191); the forwarding to the
previous observer is commented out in the source. -/
def UnregisteringObject (w : World) (o : Nat) (frames : List String) : World :=
  if w.m_TraceRegisterAndUnregister then
    let walked := w.m_StackWalker.ShowCallstack frames
    let last := walked.GetLastStackTraceString
    let unregisteringStackTrace := unregisterHeader ++ last.1
    { w with
      m_StackWalker := last.2
      m_ObjectTraceEntries :=
        w.m_ObjectTraceEntries.subscript o (fun v => v ++ [unregisteringStackTrace]) }
  else w

/-- The text one iteration of the report loop builds in its string stream (lines 206-214). -/
def reportEntry (h : Host) (entry : Nat × List String) : String :=
  let ss := ""
  let ss := ss ++ "\n" ++ "\n"
  let ss := ss ++ "Pointer: " ++ h.pointerText entry.1 ++ " (type: "
    ++ h.GetClassName entry.1 ++ ")" ++ "\n"
  let ss := entry.2.foldl (fun ss it => ss ++ it ++ "\n") ss
  ss ++ "\n"

/-- Returns the leak report, or the fixed message while the observer slot differs from
the saved previous observer (lines 195-218). -/
def GetLeakReport (h : Host) (w : World) : String :=
  if vtkDebugLeaks.GetDebugLeaksObserver w ≠ w.m_OldDebugLeakObserver then
    cannotGetReport
  else
    w.m_ObjectTraceEntries.entries.foldl
      (fun report entry => report ++ reportEntry h entry) ""

/-- Saves the previously set observer. -/
def SetOldDebugLeakObserver (w : World) (oldObserver : Option ObserverRef) : World :=
  { w with m_OldDebugLeakObserver := oldObserver }

/-- Release this observer and restore the previous one that was saved (lines 227-231). -/
def RestoreOldObserver (w : World) : World :=
  SetOldDebugLeakObserver
    (vtkDebugLeaks.SetDebugLeaksObserver w w.m_OldDebugLeakObserver) none

/-- Ends the tracing and writes the leak report to the output file, truncating it
(lines 141-149). A file that cannot be opened is not modelled. -/
def Finalizing (h : Host) (w : World) : World :=
  let w1 := RestoreOldObserver w
  { w1 with files := w1.files ++ [(w1.m_OutputFileName, GetLeakReport h w1)] }

/-- Set output file name. -/
def SetOutputFileName (w : World) (fileName : String) : World :=
  { w with m_OutputFileName := fileName }

/-- Set trace register/unregister flag. -/
def SetTraceRegisterAndUnregister (w : World) (trace : Bool) : World :=
  { w with m_TraceRegisterAndUnregister := trace }

end vtkLeakFinderObserver

namespace vtkLeakFinder

/-- Constructor (lines 266-270): creates the observer. -/
def new (dateTime : String) (installed : Option ObserverRef) : World :=
  vtkLeakFinderObserver.new dateTime installed

/-- Saves the installed observer, if there is one, and installs the tracer's
(lines 283-291). -/
def StartTracing (w : World) : World :=
  let w1 :=
    if (vtkDebugLeaks.GetDebugLeaksObserver w).isSome then
      vtkLeakFinderObserver.SetOldDebugLeakObserver w (vtkDebugLeaks.GetDebugLeaksObserver w)
    else w
  vtkDebugLeaks.SetDebugLeaksObserver w1 (some ObserverRef.leakFinder)

/-- Ends the tracing (lines 294-297). -/
def EndTracing (h : Host) (w : World) : World :=
  vtkLeakFinderObserver.Finalizing h w

/-- Forwards to the observer (lines 300-303). -/
def SetOutputFileName (w : World) (fileName : String) : World :=
  vtkLeakFinderObserver.SetOutputFileName w fileName

/-- Forwards to the observer (lines 306-309). -/
def SetTraceRegisterAndUnregister (w : World) (trace : Bool) : World :=
  vtkLeakFinderObserver.SetTraceRegisterAndUnregister w trace

end vtkLeakFinder

/-! ## The host runtime delivering lifecycle events -/

/-- The host raises a lifecycle event: the observer in the slot, if any, gets the callback.
Another observer only has the call recorded. -/
def notify (fuel : Nat) (w : World) (e : Event) : Option World :=
  match w.DebugLeaksObserver with
  | none => some w
  | some (.other p) => some { w with received := w.received ++ [(p, e.callback)] }
  | some .leakFinder =>
    match e with
    | .construct o frames => vtkLeakFinderObserver.ConstructingObject fuel w o frames
    | .destruct o => vtkLeakFinderObserver.DestructingObject fuel w o
    | .register o frames => some (vtkLeakFinderObserver.RegisteringObject w o frames)
    | .unregister o frames => some (vtkLeakFinderObserver.UnregisteringObject w o frames)

/-- A sequence of lifecycle events, in order; `none` when handling one does not return. -/
def notifyAll (fuel : Nat) : World → List Event → Option World
  | w, [] => some w
  | w, e :: es =>
    match notify fuel w e with
    | none => none
    | some w1 => notifyAll fuel w1 es

/-- What a client of the tracer, or the host, can do. -/
inductive Op where
  | StartTracing
  | EndTracing
  | SetOutputFileName (fileName : String)
  | SetTraceRegisterAndUnregister (trace : Bool)
  | lifecycle (e : Event)
  deriving DecidableEq, Repr

/-- One operation. -/
def step (h : Host) (fuel : Nat) (w : World) : Op → Option World
  | .StartTracing => some (vtkLeakFinder.StartTracing w)
  | .EndTracing => some (vtkLeakFinder.EndTracing h w)
  | .SetOutputFileName f => some (vtkLeakFinder.SetOutputFileName w f)
  | .SetTraceRegisterAndUnregister t => some (vtkLeakFinder.SetTraceRegisterAndUnregister w t)
  | .lifecycle e => notify fuel w e

/-- A sequence of operations, in order. -/
def run (h : Host) (fuel : Nat) : World → List Op → Option World
  | w, [] => some w
  | w, op :: ops =>
    match step h fuel w op with
    | none => none
    | some w1 => run h fuel w1 ops

/-! ## Derived notions used to state and prove the properties -/

/-- The tracer's own part of handling an event, without the forwarding. -/
def own (w : World) : Event → World
  | .construct o frames => vtkLeakFinderObserver.recordConstruct w o frames
  | .destruct o => vtkLeakFinderObserver.recordDestruct w o
  | .register o frames => vtkLeakFinderObserver.RegisteringObject w o frames
  | .unregister o frames => vtkLeakFinderObserver.UnregisteringObject w o frames

/-- The tracer's own part of handling a sequence of events. -/
def ownAll (w : World) (es : List Event) : World := es.foldl own w

/-- The calls the tracer's callback for an event makes on the saved previous observer:
construction and destruction are forwarded to another observer, nothing else is. -/
def forwarded (old : Option ObserverRef) : Event → List (Nat × Callback)
  | .construct o _ =>
    match old with
    | some (.other p) => [(p, Callback.ConstructingObject o)]
    | _ => []
  | .destruct o =>
    match old with
    | some (.other p) => [(p, Callback.DestructingObject o)]
    | _ => []
  | .register _ _ => []
  | .unregister _ _ => []

/-- The forwarded calls of a sequence of events, in order. -/
def forwardedAll (old : Option ObserverRef) : List Event → List (Nat × Callback)
  | [] => []
  | e :: es => forwarded old e ++ forwardedAll old es

/-- Concatenation of strings, in order. -/
def concat : List String → String
  | [] => ""
  | s :: rest => s ++ concat rest

/-- The report block of one tracked object in the words of the specification: two line
breaks, the pointer line, a line break, each stored trace followed by a line break, and
one more line break. -/
def specBlock (h : Host) (o : Nat) (traces : List String) : String :=
  "\n\n" ++ ("Pointer: " ++ h.pointerText o ++ " (type: " ++ h.GetClassName o ++ ")")
    ++ "\n" ++ concat (traces.map (fun t => t ++ "\n")) ++ "\n"

/-- The report in the words of the specification: the blocks of the tracked objects, one
after the other in the order of the map. -/
def specReport (h : Host) (m : TraceMap) : String :=
  concat (m.entries.map (fun e => specBlock h e.1 e.2))

/-- The file name an operation sets, if it is a `SetOutputFileName`. -/
def Op.fileNameSet : Op → Option String
  | .SetOutputFileName f => some f
  | _ => none

/-- The file name of the most recent `SetOutputFileName` among the operations, if any. -/
def lastSetOutputFileName : List Op → Option String
  | [] => none
  | op :: ops =>
    match lastSetOutputFileName ops with
    | some f => some f
    | none => op.fileNameSet

/-- The trace that a registration or unregistration event on `o` stores when the stack
walker starts from an empty string; no trace for any other event. -/
def Event.traceOn (o : Nat) : Event → Option String
  | .register o1 frames => if o1 = o then some (registerHeader ++ String.join frames) else none
  | .unregister o1 frames =>
    if o1 = o then some (unregisterHeader ++ String.join frames) else none
  | _ => none

/-- Whether the event is a construction or a destruction of `o`. -/
def Event.boundsLifeOf (o : Nat) : Event → Bool
  | .construct o1 _ => decide (o1 = o)
  | .destruct o1 => decide (o1 = o)
  | _ => false

/-- A host for examples: pointers print as `0x` and decimal digits, every class is
`vtkObject`. -/
def exampleHost : Host :=
  { pointerText := fun o => "0x" ++ toString o
    GetClassName := fun _ => "vtkObject" }

/-- A stored trace begins with one of the three fixed headers, line break included. -/
def HasHeader (t : String) : Prop :=
  ∃ rest, t = constructHeader ++ rest ∨ t = registerHeader ++ rest
    ∨ t = unregisterHeader ++ rest

/-- Every trace stored in the map begins with one of the three fixed headers. -/
def Headed (m : TraceMap) : Prop :=
  ∀ e ∈ m.entries, ∀ t ∈ e.2, HasHeader t

end LeakFinder

/-! ## The argument check of the external beam planning test driver
(`ExternalBeamPlanning/Testing/Cxx/vtkSlicerExternalBeamPlanningModuleLogicTest1.cxx`) -/

namespace ExternalBeamPlanning

/-- What the driver holds when its argument part is through and the scene is about to be
created: the two file names and the text written to the output stream. -/
structure Arguments where
  testSceneFileName : String
  temporarySceneFileName : String
  outputStream : String
  deriving DecidableEq, Repr

/-- Modelled from the spec: the macro `STRCASECMP` has no definition among the sources; it
compares two strings ignoring case and yields 0 exactly when they are equal that way
(negative or positive by the order of the first differing character otherwise). -/
def STRCASECMP (a b : String) : Int :=
  let la := a.data.map Char.toLower
  let lb := b.data.map Char.toLower
  if la = lb then 0 else if la < lb then -1 else 1

/-- The argument part of the test driver (lines 57-102), up to the creation of the scene.
`argv` holds the `argc` arguments, the program name first; `strcasecmp` is the macro
`STRCASECMP`. The result is `.error` with the text written to the error stream when the
driver returns `EXIT_FAILURE`, and `.ok` when it goes on to create the scene. -/
def vtkSlicerExternalBeamPlanningModuleLogicTest1 (strcasecmp : String → String → Int)
    (argv : List String) : Except String Arguments :=
  let argc := argv.length
  let argIndex := 1
  -- TestSceneFile
  if argc > argIndex + 1 then
    let first : String × String × Nat :=
      if strcasecmp (argv.getD argIndex "") "-TestSceneFile" = 0 then
        (argv.getD (argIndex + 1) "",
          "Test MRML scene file name: " ++ argv.getD (argIndex + 1) "" ++ "\n",
          argIndex + 2)
      else
        ("", "", argIndex)
    let testSceneFileName := first.1
    let outputStream := first.2.1
    let argIndex := first.2.2
    -- TemporarySceneFile
    if argc > argIndex + 1 then
      if strcasecmp (argv.getD argIndex "") "-TemporarySceneFile" = 0 then
        Except.ok
          { testSceneFileName := testSceneFileName
            temporarySceneFileName := argv.getD (argIndex + 1) ""
            outputStream := outputStream ++ "Temporary scene file name: "
              ++ argv.getD (argIndex + 1) "" ++ "\n" }
      else
        Except.ok
          { testSceneFileName := testSceneFileName
            temporarySceneFileName := ""
            outputStream := outputStream }
    else
      Except.error "Invalid arguments!\n"
  else
    Except.error "Invalid arguments!\n"

end ExternalBeamPlanning

namespace LeakFinder

/-! ## Facts about the tracked map -/

namespace TraceMap

theorem rawFind_rawSubscript_self (l : List (Nat × List String)) (o : Nat)
    (f : List String → List String) (hl : (l.map Prod.fst).Pairwise (· < ·)) :
    rawFind (rawSubscript l o f) o = some (f ((rawFind l o).getD [])) := by
  induction l with
  | nil => simp [rawSubscript, rawFind]
  | cons e rest ih =>
    obtain ⟨k, v⟩ := e
    simp only [List.map_cons, List.pairwise_cons] at hl
    unfold rawSubscript
    by_cases h1 : o < k
    · have h2 : o ≠ k := Nat.ne_of_lt h1
      have h3 : rawFind rest o = none := by
        clear ih
        induction rest with
        | nil => rfl
        | cons e2 rest2 ih2 =>
          obtain ⟨k2, v2⟩ := e2
          have hk : k < k2 := hl.1 k2 (by simp)
          have h4 : o ≠ k2 := by omega
          simp only [rawFind, h4, if_false]
          apply ih2
          refine ⟨fun x hx => hl.1 x (by simp [hx]), ?_⟩
          have := hl.2
          simp only [List.map_cons, List.pairwise_cons] at this
          exact this.2
      simp [h1, h2, rawFind, h3]
    · by_cases h2 : o = k
      · subst h2
        simp [rawFind]
      · simp [h1, h2, rawFind, ih hl.2]

/-- After `m[o]` was used as an lvalue, `o` has what `f` made of its vector, an object
without entry starting from the empty vector. -/
theorem find_subscript_self (m : TraceMap) (o : Nat) (f : List String → List String) :
    find (subscript m o f) o = some (f ((find m o).getD [])) :=
  rawFind_rawSubscript_self m.1 o f m.2

/-- Using `m[o]` leaves every other object as it was. -/
theorem find_subscript_ne (m : TraceMap) (o k : Nat) (f : List String → List String)
    (hk : k ≠ o) : find (subscript m o f) k = find m k := by
  obtain ⟨l, hl⟩ := m
  show rawFind (rawSubscript l o f) k = rawFind l k
  clear hl
  induction l with
  | nil => simp [rawSubscript, rawFind, hk]
  | cons e rest ih =>
    obtain ⟨k1, v⟩ := e
    unfold rawSubscript
    by_cases h1 : o < k1
    · simp [h1, rawFind, hk]
    · by_cases h2 : o = k1
      · subst h2
        simp [rawFind, hk]
      · simp [h1, h2, rawFind, ih]

theorem find_erase_self (m : TraceMap) (o : Nat) : find (erase m o) o = none := by
  obtain ⟨l, hl⟩ := m
  show rawFind (l.filter (fun e => decide (e.1 ≠ o))) o = none
  clear hl
  induction l with
  | nil => simp [rawFind]
  | cons e rest ih =>
    obtain ⟨k, v⟩ := e
    by_cases h : k = o
    · simpa [h] using ih
    · have h2 : o ≠ k := fun x => h x.symm
      simpa [h, rawFind, h2] using ih

theorem find_erase_ne (m : TraceMap) (o k : Nat) (hk : k ≠ o) :
    find (erase m o) k = find m k := by
  obtain ⟨l, hl⟩ := m
  show rawFind (l.filter (fun e => decide (e.1 ≠ o))) k = rawFind l k
  clear hl
  induction l with
  | nil => simp [rawFind]
  | cons e rest ih =>
    obtain ⟨k1, v⟩ := e
    by_cases h : k1 = o
    · subst h
      simpa [rawFind, hk] using ih
    · by_cases h3 : k = k1
      · simp [h, rawFind, h3]
      · simpa [h, rawFind, h3] using ih

/-- Erasing `o` after `m[o]` was used leaves the pairs of the other objects, in order. -/
theorem entries_erase_subscript (m : TraceMap) (o : Nat) (f : List String → List String) :
    (erase (subscript m o f) o).entries = m.entries.filter (fun e => decide (e.1 ≠ o)) := by
  obtain ⟨l, hl⟩ := m
  show (rawSubscript l o f).filter (fun e => decide (e.1 ≠ o))
    = l.filter (fun e => decide (e.1 ≠ o))
  clear hl
  induction l with
  | nil => simp [rawSubscript]
  | cons e rest ih =>
    obtain ⟨k, v⟩ := e
    unfold rawSubscript
    by_cases h1 : o < k
    · simp [h1]
    · by_cases h2 : o = k
      · subst h2
        simp
      · have h3 : k ≠ o := fun x => h2 x.symm
        simp only [h1, h2, if_false, List.filter_cons, h3, ne_eq, not_false_eq_true,
          decide_True, if_true, ih]

/-- An address is among the keys exactly when the lookup finds it. -/
theorem mem_keys_iff_find (m : TraceMap) (o : Nat) :
    o ∈ keys m ↔ find m o ≠ none := by
  obtain ⟨l, hl⟩ := m
  show o ∈ l.map Prod.fst ↔ rawFind l o ≠ none
  clear hl
  induction l with
  | nil => simp [rawFind]
  | cons e rest ih =>
    obtain ⟨k, v⟩ := e
    by_cases h : o = k
    · simp [rawFind, h]
    · simp [rawFind, h, ih]

end TraceMap

/-! ## Handling events while the tracer's observer is installed -/

open vtkLeakFinderObserver

theorem own_fields (w : World) (e : Event) :
    (own w e).m_OldDebugLeakObserver = w.m_OldDebugLeakObserver
    ∧ (own w e).DebugLeaksObserver = w.DebugLeaksObserver
    ∧ (own w e).m_OutputFileName = w.m_OutputFileName
    ∧ (own w e).m_TraceRegisterAndUnregister = w.m_TraceRegisterAndUnregister
    ∧ (own w e).files = w.files
    ∧ (own w e).received = w.received := by
  cases e with
  | construct o frames => simp [own, recordConstruct]
  | destruct o => simp [own, recordDestruct]
  | register o frames => simp only [own, RegisteringObject]; split <;> simp
  | unregister o frames => simp only [own, UnregisteringObject]; split <;> simp

theorem own_received (w : World) (e : Event) (r : List (Nat × Callback)) :
    own { w with received := r } e = { own w e with received := r } := by
  cases e with
  | construct o frames => rfl
  | destruct o => rfl
  | register o frames => simp only [own, RegisteringObject]; split <;> rfl
  | unregister o frames => simp only [own, UnregisteringObject]; split <;> rfl

theorem ownAll_received (w : World) (es : List Event) (r : List (Nat × Callback)) :
    ownAll { w with received := r } es = { ownAll w es with received := r } := by
  induction es generalizing w with
  | nil => rfl
  | cons e es ih =>
    show ownAll (own { w with received := r } e) es = { ownAll (own w e) es with received := r }
    rw [own_received, ih]

theorem ownAll_fields (w : World) (es : List Event) :
    (ownAll w es).m_OldDebugLeakObserver = w.m_OldDebugLeakObserver
    ∧ (ownAll w es).DebugLeaksObserver = w.DebugLeaksObserver
    ∧ (ownAll w es).m_OutputFileName = w.m_OutputFileName
    ∧ (ownAll w es).m_TraceRegisterAndUnregister = w.m_TraceRegisterAndUnregister
    ∧ (ownAll w es).files = w.files
    ∧ (ownAll w es).received = w.received := by
  induction es generalizing w with
  | nil => simp [ownAll]
  | cons e es ih =>
    have h1 := own_fields w e
    have h2 := ih (own w e)
    have h3 : ownAll w (e :: es) = ownAll (own w e) es := rfl
    rw [h3]
    refine ⟨h2.1.trans h1.1, h2.2.1.trans h1.2.1, h2.2.2.1.trans h1.2.2.1,
      h2.2.2.2.1.trans h1.2.2.2.1, h2.2.2.2.2.1.trans h1.2.2.2.2.1,
      h2.2.2.2.2.2.trans h1.2.2.2.2.2⟩

theorem notify_installed (fuel : Nat) (w : World) (e : Event)
    (hg : w.DebugLeaksObserver = some ObserverRef.leakFinder)
    (ho : w.m_OldDebugLeakObserver ≠ some ObserverRef.leakFinder) :
    notify (fuel + 1) w e
      = some { own w e with received := w.received ++ forwarded w.m_OldDebugLeakObserver e } := by
  unfold notify
  rw [hg]
  cases e with
  | construct o frames =>
    show ConstructingObject (fuel + 1) w o frames = _
    unfold ConstructingObject
    have hold : (recordConstruct w o frames).m_OldDebugLeakObserver
        = w.m_OldDebugLeakObserver := rfl
    cases hw : w.m_OldDebugLeakObserver with
    | none => simp [hold, hw, own, forwarded, recordConstruct]
    | some r =>
      cases r with
      | leakFinder => exact absurd hw ho
      | other p => simp [hold, hw, own, forwarded, recordConstruct]
  | destruct o =>
    show DestructingObject (fuel + 1) w o = _
    unfold DestructingObject
    have hold : (recordDestruct w o).m_OldDebugLeakObserver
        = w.m_OldDebugLeakObserver := rfl
    cases hw : w.m_OldDebugLeakObserver with
    | none => simp [hold, hw, own, forwarded, recordDestruct]
    | some r =>
      cases r with
      | leakFinder => exact absurd hw ho
      | other p => simp [hold, hw, own, forwarded, recordDestruct]
  | register o frames =>
    have h := (own_fields w (.register o frames)).2.2.2.2.2
    simp only [forwarded, List.append_nil, own] at h ⊢
    rw [← h]
  | unregister o frames =>
    have h := (own_fields w (.unregister o frames)).2.2.2.2.2
    simp only [forwarded, List.append_nil, own] at h ⊢
    rw [← h]

theorem notifyAll_installed (fuel : Nat) (w : World) (es : List Event)
    (hg : w.DebugLeaksObserver = some ObserverRef.leakFinder)
    (ho : w.m_OldDebugLeakObserver ≠ some ObserverRef.leakFinder) :
    notifyAll (fuel + 1) w es
      = some { ownAll w es with
          received := w.received ++ forwardedAll w.m_OldDebugLeakObserver es } := by
  induction es generalizing w with
  | nil => simp [notifyAll, ownAll, forwardedAll]
  | cons e es ih =>
    have hf := own_fields w e
    unfold notifyAll
    rw [notify_installed fuel w e hg ho]
    simp only
    rw [ih _ (by simpa using hf.2.1.trans hg) (by simpa [hf.1] using ho)]
    rw [ownAll_received]
    simp only [hf.1, forwardedAll, List.append_assoc]
    rfl


/-! ## Starting and ending a trace -/

theorem StartTracing_fields (w : World) :
    (vtkLeakFinder.StartTracing w).DebugLeaksObserver = some ObserverRef.leakFinder
    ∧ (vtkLeakFinder.StartTracing w).m_OldDebugLeakObserver
        = (if w.DebugLeaksObserver.isSome then w.DebugLeaksObserver
            else w.m_OldDebugLeakObserver)
    ∧ (vtkLeakFinder.StartTracing w).m_OutputFileName = w.m_OutputFileName
    ∧ (vtkLeakFinder.StartTracing w).m_TraceRegisterAndUnregister
        = w.m_TraceRegisterAndUnregister
    ∧ (vtkLeakFinder.StartTracing w).files = w.files
    ∧ (vtkLeakFinder.StartTracing w).received = w.received
    ∧ (vtkLeakFinder.StartTracing w).m_ObjectTraceEntries = w.m_ObjectTraceEntries
    ∧ (vtkLeakFinder.StartTracing w).m_StackWalker = w.m_StackWalker := by
  unfold vtkLeakFinder.StartTracing vtkDebugLeaks.SetDebugLeaksObserver
    vtkDebugLeaks.GetDebugLeaksObserver SetOldDebugLeakObserver
  split <;> simp_all

theorem EndTracing_fields (h : Host) (w : World) :
    (vtkLeakFinder.EndTracing h w).DebugLeaksObserver = w.m_OldDebugLeakObserver
    ∧ (vtkLeakFinder.EndTracing h w).m_OldDebugLeakObserver = none
    ∧ (vtkLeakFinder.EndTracing h w).m_OutputFileName = w.m_OutputFileName
    ∧ (vtkLeakFinder.EndTracing h w).m_TraceRegisterAndUnregister
        = w.m_TraceRegisterAndUnregister
    ∧ (vtkLeakFinder.EndTracing h w).received = w.received
    ∧ (vtkLeakFinder.EndTracing h w).m_ObjectTraceEntries = w.m_ObjectTraceEntries
    ∧ (vtkLeakFinder.EndTracing h w).m_StackWalker = w.m_StackWalker
    ∧ (vtkLeakFinder.EndTracing h w).files
        = w.files ++ [(w.m_OutputFileName, GetLeakReport h (RestoreOldObserver w))] := by
  simp [vtkLeakFinder.EndTracing, Finalizing, RestoreOldObserver, SetOldDebugLeakObserver,
    vtkDebugLeaks.SetDebugLeaksObserver]

/-- The report asked for right after the previous observer was restored: the refusal when
an observer had been saved, the listing when none had. -/
theorem GetLeakReport_RestoreOldObserver (h : Host) (w : World) :
    GetLeakReport h (RestoreOldObserver w)
      = if w.m_OldDebugLeakObserver = none then
          w.m_ObjectTraceEntries.entries.foldl
            (fun report entry => report ++ reportEntry h entry) ""
        else cannotGetReport := by
  unfold GetLeakReport RestoreOldObserver SetOldDebugLeakObserver
    vtkDebugLeaks.SetDebugLeaksObserver vtkDebugLeaks.GetDebugLeaksObserver
  by_cases hw : w.m_OldDebugLeakObserver = none <;> simp [hw]

/-- With an empty observer slot a lifecycle event reaches nobody. -/
theorem notify_none (fuel : Nat) (w : World) (e : Event)
    (hg : w.DebugLeaksObserver = none) : notify fuel w e = some w := by
  unfold notify
  split <;> rename_i heq <;> rw [hg] at heq <;> first | rfl | cases heq

/-- With another observer in the slot a lifecycle event is that observer's callback and
leaves the tracer alone. -/
theorem notify_other (fuel : Nat) (w : World) (e : Event) (p : Nat)
    (hg : w.DebugLeaksObserver = some (ObserverRef.other p)) :
    notify fuel w e = some { w with received := w.received ++ [(p, e.callback)] } := by
  unfold notify
  split <;> rename_i heq <;> rw [hg] at heq
  · cases heq
  · injection heq with heq
    injection heq with heq
    subst heq
    rfl
  · cases heq


/-- C1 (fails on the code): with another observer installed before `StartTracing`, an
object constructed during the trace and never destructed is tracked at `EndTracing`, but
the report written there is the refusal message and holds no entry for it. -/
theorem C1_live_object_missing_from_report_after_previous_observer :
    (run exampleHost 1 (vtkLeakFinder.new "20240101_120000" (some (ObserverRef.other 1)))
        [Op.StartTracing, Op.lifecycle (Event.construct 5 ["main\n"]), Op.EndTracing]).map
      (fun w => (w.m_ObjectTraceEntries.entries, w.files))
    = some ([(5, ["----Construct stack trace----\nmain\n"])],
        [("./trace_20240101_120000.log",
          "Cannot get report while running. Observer needs to be disconnected (vtkLeakFinder::EndTracing called) first.")]) := by
  decide

/-- C2: when the tracer holds no saved observer and the observer slot is empty or holds
another observer, then `StartTracing`, any sequence of lifecycle events and `EndTracing`
leave the slot holding exactly what it held before, and every later lifecycle event goes
to that observer (or to nobody when the slot was empty), not to the tracer. -/
theorem C2_EndTracing_restores_previous_observer (h : Host) (fuel : Nat) (w : World)
    (es : List Event) (hold : w.m_OldDebugLeakObserver = none)
    (hslot : w.DebugLeaksObserver ≠ some ObserverRef.leakFinder) :
    ∃ w1, notifyAll (fuel + 1) (vtkLeakFinder.StartTracing w) es = some w1
      ∧ (vtkLeakFinder.EndTracing h w1).DebugLeaksObserver = w.DebugLeaksObserver
      ∧ ∀ (fuel2 : Nat) (e : Event),
          notify fuel2 (vtkLeakFinder.EndTracing h w1) e
            = some (match w.DebugLeaksObserver with
                | some (ObserverRef.other p) =>
                  { vtkLeakFinder.EndTracing h w1 with
                    received := (vtkLeakFinder.EndTracing h w1).received ++ [(p, e.callback)] }
                | _ => vtkLeakFinder.EndTracing h w1) := by
  have hs := StartTracing_fields w
  have hsold : (vtkLeakFinder.StartTracing w).m_OldDebugLeakObserver
      = w.DebugLeaksObserver := by
    rw [hs.2.1]
    cases hw : w.DebugLeaksObserver <;> simp [hold]
  have hne : (vtkLeakFinder.StartTracing w).m_OldDebugLeakObserver
      ≠ some ObserverRef.leakFinder := by rw [hsold]; exact hslot
  refine ⟨_, notifyAll_installed fuel _ es hs.1 hne, ?_, ?_⟩
  · rw [(EndTracing_fields h _).1]
    exact (ownAll_fields _ es).1.trans hsold
  · intro fuel2 e
    have hd : (vtkLeakFinder.EndTracing h
        { ownAll (vtkLeakFinder.StartTracing w) es with
          received := (vtkLeakFinder.StartTracing w).received
            ++ forwardedAll (vtkLeakFinder.StartTracing w).m_OldDebugLeakObserver es
        }).DebugLeaksObserver = w.DebugLeaksObserver := by
      rw [(EndTracing_fields h _).1]
      exact (ownAll_fields _ es).1.trans hsold
    cases hw : w.DebugLeaksObserver with
    | none => exact notify_none fuel2 _ e (hd.trans hw)
    | some r =>
      cases r with
      | leakFinder => exact absurd hw hslot
      | other p => exact notify_other fuel2 _ e p (hd.trans hw)

/-- C2 at a concrete input: observer 1 is installed, an object is constructed, registered
and destructed during the trace, and observer 1 is back in the slot afterwards. -/
theorem C2_EndTracing_restores_previous_observer_witness :
    (vtkLeakFinder.new "20240101_120000" (some (ObserverRef.other 1))).m_OldDebugLeakObserver
      = none
    ∧ (vtkLeakFinder.new "20240101_120000" (some (ObserverRef.other 1))).DebugLeaksObserver
      ≠ some ObserverRef.leakFinder
    ∧ ∃ w1, notifyAll 1
        (vtkLeakFinder.StartTracing
          (vtkLeakFinder.new "20240101_120000" (some (ObserverRef.other 1))))
        [Event.construct 5 ["main\n"], Event.register 5 ["f\n"], Event.destruct 5] = some w1
      ∧ (vtkLeakFinder.EndTracing exampleHost w1).DebugLeaksObserver
        = some (ObserverRef.other 1) := by
  refine ⟨rfl, by decide, ?_⟩
  obtain ⟨w1, h1, h2, _⟩ := C2_EndTracing_restores_previous_observer exampleHost 0
    (vtkLeakFinder.new "20240101_120000" (some (ObserverRef.other 1)))
    [Event.construct 5 ["main\n"], Event.register 5 ["f\n"], Event.destruct 5] rfl (by decide)
  exact ⟨w1, h1, h2⟩

/-- C3 (fails on the code): whenever another observer `p` was installed before
`StartTracing`, whatever lifecycle events follow, the text `EndTracing` writes to the
output file is the message "Cannot get report while running ..." and not the leak report. -/
theorem C3_EndTracing_writes_refusal_after_previous_observer (h : Host) (fuel : Nat)
    (dateTime : String) (p : Nat) (es : List Event) :
    ∃ w1, notifyAll (fuel + 1)
        (vtkLeakFinder.StartTracing (vtkLeakFinder.new dateTime (some (ObserverRef.other p))))
        es = some w1
      ∧ (vtkLeakFinder.EndTracing h w1).files
        = [("./trace_" ++ dateTime ++ ".log", cannotGetReport)] := by
  have hs := StartTracing_fields (vtkLeakFinder.new dateTime (some (ObserverRef.other p)))
  have hsold : (vtkLeakFinder.StartTracing
      (vtkLeakFinder.new dateTime (some (ObserverRef.other p)))).m_OldDebugLeakObserver
      = some (ObserverRef.other p) := rfl
  have hne : (vtkLeakFinder.StartTracing
      (vtkLeakFinder.new dateTime (some (ObserverRef.other p)))).m_OldDebugLeakObserver
      ≠ some ObserverRef.leakFinder := by rw [hsold]; simp
  refine ⟨_, notifyAll_installed fuel _ es hs.1 hne, ?_⟩
  have hf := ownAll_fields (vtkLeakFinder.StartTracing
    (vtkLeakFinder.new dateTime (some (ObserverRef.other p)))) es
  rw [(EndTracing_fields h _).2.2.2.2.2.2.2, GetLeakReport_RestoreOldObserver]
  have h1 : (ownAll (vtkLeakFinder.StartTracing
      (vtkLeakFinder.new dateTime (some (ObserverRef.other p)))) es).m_OldDebugLeakObserver
      = some (ObserverRef.other p) := hf.1.trans hsold
  have h2 : (ownAll (vtkLeakFinder.StartTracing
      (vtkLeakFinder.new dateTime (some (ObserverRef.other p)))) es).files = [] :=
    hf.2.2.2.2.1
  have h3 : (ownAll (vtkLeakFinder.StartTracing
      (vtkLeakFinder.new dateTime (some (ObserverRef.other p)))) es).m_OutputFileName
      = "./trace_" ++ dateTime ++ ".log" := hf.2.2.1
  simp [h1, h2, h3]

/-- C4: when neither the observer slot nor the tracer's saved observer is the tracer's
own observer, then after `StartTracing` and any sequence of construction, registration,
unregistration and destruction events the slot holds the tracer's own observer. -/
theorem C4_tracer_observer_installed_while_tracing (fuel : Nat) (w : World)
    (es : List Event) (hold : w.m_OldDebugLeakObserver ≠ some ObserverRef.leakFinder)
    (hslot : w.DebugLeaksObserver ≠ some ObserverRef.leakFinder) :
    ∃ w1, notifyAll (fuel + 1) (vtkLeakFinder.StartTracing w) es = some w1
      ∧ w1.DebugLeaksObserver = some ObserverRef.leakFinder := by
  have hs := StartTracing_fields w
  have hne : (vtkLeakFinder.StartTracing w).m_OldDebugLeakObserver
      ≠ some ObserverRef.leakFinder := by
    rw [hs.2.1]
    split
    · exact hslot
    · exact hold
  refine ⟨_, notifyAll_installed fuel _ es hs.1 hne, ?_⟩
  exact (ownAll_fields _ es).2.1.trans hs.1

/-- C4 at a concrete input: observer 1 was installed before, four events are handled. -/
theorem C4_tracer_observer_installed_while_tracing_witness :
    (vtkLeakFinder.new "20240101_120000" (some (ObserverRef.other 1))).m_OldDebugLeakObserver
      ≠ some ObserverRef.leakFinder
    ∧ (vtkLeakFinder.new "20240101_120000" (some (ObserverRef.other 1))).DebugLeaksObserver
      ≠ some ObserverRef.leakFinder
    ∧ ∃ w1, notifyAll 1
        (vtkLeakFinder.StartTracing
          (vtkLeakFinder.new "20240101_120000" (some (ObserverRef.other 1))))
        [Event.construct 5 ["main\n"], Event.register 5 ["f\n"],
          Event.unregister 5 ["g\n"], Event.destruct 5] = some w1
      ∧ w1.DebugLeaksObserver = some ObserverRef.leakFinder :=
  ⟨by decide, by decide,
    C4_tracer_observer_installed_while_tracing 0
      (vtkLeakFinder.new "20240101_120000" (some (ObserverRef.other 1)))
      [Event.construct 5 ["main\n"], Event.register 5 ["f\n"],
        Event.unregister 5 ["g\n"], Event.destruct 5] (by decide) (by decide)⟩

/-! ## The text of the report -/

theorem foldl_append_concat {α : Type} (g : α → String) (l : List α) (acc : String) :
    l.foldl (fun r e => r ++ g e) acc = acc ++ concat (l.map g) := by
  induction l generalizing acc with
  | nil => simp [concat]
  | cons e rest ih =>
    simp only [List.foldl_cons, List.map_cons, concat, ih, String.append_assoc]

theorem foldl_traces (traces : List String) (acc : String) :
    traces.foldl (fun ss it => ss ++ it ++ "\n") acc
      = acc ++ concat (traces.map (fun t => t ++ "\n")) := by
  have h := foldl_append_concat (fun t : String => t ++ "\n") traces acc
  simpa only [String.append_assoc] using h

/-- One iteration of the report loop builds the block the specification describes. -/
theorem reportEntry_eq_specBlock (h : Host) (entry : Nat × List String) :
    reportEntry h entry = specBlock h entry.1 entry.2 := by
  have hbreaks : ("\n\n" : String) = "\n" ++ "\n" := by decide
  unfold reportEntry specBlock
  simp only []
  rw [foldl_traces, hbreaks]
  simp only [String.append_assoc, String.empty_append]

/-- The loop of `GetLeakReport` builds the report the specification describes. -/
theorem report_loop_eq_specReport (h : Host) (m : TraceMap) :
    m.entries.foldl (fun report entry => report ++ reportEntry h entry) ""
      = specReport h m := by
  rw [foldl_append_concat (reportEntry h) m.entries ""]
  unfold specReport
  have hmap : m.entries.map (reportEntry h)
      = m.entries.map (fun e => specBlock h e.1 e.2) :=
    List.map_congr_left (fun e _ => reportEntry_eq_specBlock h e)
  rw [hmap]
  exact String.empty_append _

/-- C5: whenever `GetLeakReport` does not return the "Cannot get report while running"
message, its result is the concatenation of one block per tracked object (two line breaks,
the pointer line with address and class name, a line break, each stored trace followed by
a line break, one more line break), the tracked objects are taken in strictly ascending
address order, and with no tracked object the result is the empty string. -/
theorem C5_report_is_blocks_in_address_order (h : Host) (w : World)
    (hreport : GetLeakReport h w ≠ cannotGetReport) :
    GetLeakReport h w = specReport h w.m_ObjectTraceEntries
    ∧ (w.m_ObjectTraceEntries.entries.map Prod.fst).Pairwise (· < ·)
    ∧ (w.m_ObjectTraceEntries.entries = [] → GetLeakReport h w = "") := by
  have hloop : GetLeakReport h w
      = w.m_ObjectTraceEntries.entries.foldl
          (fun report entry => report ++ reportEntry h entry) "" := by
    unfold GetLeakReport at hreport ⊢
    split
    · rename_i hne
      rw [if_pos hne] at hreport
      exact absurd rfl hreport
    · rfl
  refine ⟨hloop.trans (report_loop_eq_specReport h _), w.m_ObjectTraceEntries.2, ?_⟩
  intro hempty
  rw [hloop, hempty]
  rfl

/-- C5 at a concrete input: no observer was installed before, objects 5 and 3 are
constructed in that order and 5 is registered; the report lists 3 before 5. -/
theorem C5_report_is_blocks_in_address_order_witness :
    GetLeakReport exampleHost
        (vtkLeakFinder.EndTracing exampleHost
          (ownAll (vtkLeakFinder.StartTracing (vtkLeakFinder.new "20240101_120000" none))
            [Event.construct 5 ["main\n"], Event.construct 3 ["main\n"],
              Event.register 5 ["f\n"]]))
      ≠ cannotGetReport
    ∧ GetLeakReport exampleHost
        (vtkLeakFinder.EndTracing exampleHost
          (ownAll (vtkLeakFinder.StartTracing (vtkLeakFinder.new "20240101_120000" none))
            [Event.construct 5 ["main\n"], Event.construct 3 ["main\n"],
              Event.register 5 ["f\n"]]))
      = specReport exampleHost
        (vtkLeakFinder.EndTracing exampleHost
          (ownAll (vtkLeakFinder.StartTracing (vtkLeakFinder.new "20240101_120000" none))
            [Event.construct 5 ["main\n"], Event.construct 3 ["main\n"],
              Event.register 5 ["f\n"]])).m_ObjectTraceEntries :=
  ⟨by decide,
    (C5_report_is_blocks_in_address_order exampleHost
      (vtkLeakFinder.EndTracing exampleHost
        (ownAll (vtkLeakFinder.StartTracing (vtkLeakFinder.new "20240101_120000" none))
          [Event.construct 5 ["main\n"], Event.construct 3 ["main\n"],
            Event.register 5 ["f\n"]])) (by decide)).1⟩

/-! ## What a lifecycle event leaves unchanged, whenever its handling returns -/

theorem ConstructingObject_some_fields (fuel : Nat) (w : World) (o : Nat)
    (frames : List String) (w1 : World)
    (hrun : ConstructingObject fuel w o frames = some w1) :
    w1.m_OldDebugLeakObserver = w.m_OldDebugLeakObserver
    ∧ w1.DebugLeaksObserver = w.DebugLeaksObserver
    ∧ w1.m_OutputFileName = w.m_OutputFileName
    ∧ w1.m_TraceRegisterAndUnregister = w.m_TraceRegisterAndUnregister
    ∧ w1.files = w.files := by
  induction fuel generalizing w with
  | zero => simp [ConstructingObject] at hrun
  | succ fuel ih =>
    unfold ConstructingObject at hrun
    simp only at hrun
    split at hrun
    · injection hrun with hrun
      subst hrun
      simp [recordConstruct]
    · injection hrun with hrun
      subst hrun
      simp [recordConstruct]
    · have h := ih _ hrun
      simpa [recordConstruct] using h

theorem DestructingObject_some_fields (fuel : Nat) (w : World) (o : Nat) (w1 : World)
    (hrun : DestructingObject fuel w o = some w1) :
    w1.m_OldDebugLeakObserver = w.m_OldDebugLeakObserver
    ∧ w1.DebugLeaksObserver = w.DebugLeaksObserver
    ∧ w1.m_OutputFileName = w.m_OutputFileName
    ∧ w1.m_TraceRegisterAndUnregister = w.m_TraceRegisterAndUnregister
    ∧ w1.files = w.files := by
  induction fuel generalizing w with
  | zero => simp [DestructingObject] at hrun
  | succ fuel ih =>
    unfold DestructingObject at hrun
    simp only at hrun
    split at hrun
    · injection hrun with hrun
      subst hrun
      simp [recordDestruct]
    · injection hrun with hrun
      subst hrun
      simp [recordDestruct]
    · have h := ih _ hrun
      simpa [recordDestruct] using h

theorem notify_some_fields (fuel : Nat) (w : World) (e : Event) (w1 : World)
    (hrun : notify fuel w e = some w1) :
    w1.m_OldDebugLeakObserver = w.m_OldDebugLeakObserver
    ∧ w1.DebugLeaksObserver = w.DebugLeaksObserver
    ∧ w1.m_OutputFileName = w.m_OutputFileName
    ∧ w1.m_TraceRegisterAndUnregister = w.m_TraceRegisterAndUnregister
    ∧ w1.files = w.files := by
  unfold notify at hrun
  split at hrun
  · injection hrun with hrun
    subst hrun
    simp
  · injection hrun with hrun
    subst hrun
    simp
  · cases e with
    | construct o frames => exact ConstructingObject_some_fields fuel w o frames w1 hrun
    | destruct o => exact DestructingObject_some_fields fuel w o w1 hrun
    | register o frames =>
      injection hrun with hrun
      subst hrun
      have h := own_fields w (Event.register o frames)
      exact ⟨h.1, h.2.1, h.2.2.1, h.2.2.2.1, h.2.2.2.2.1⟩
    | unregister o frames =>
      injection hrun with hrun
      subst hrun
      have h := own_fields w (Event.unregister o frames)
      exact ⟨h.1, h.2.1, h.2.2.1, h.2.2.2.1, h.2.2.2.2.1⟩

/-- The output file name after a run is the one of the last `SetOutputFileName`, or the
one there was when there is none. -/
theorem run_m_OutputFileName (h : Host) (fuel : Nat) (w : World) (ops : List Op)
    (w1 : World) (hrun : run h fuel w ops = some w1) :
    w1.m_OutputFileName = (lastSetOutputFileName ops).getD w.m_OutputFileName := by
  induction ops generalizing w with
  | nil =>
    simp only [run] at hrun
    injection hrun with hrun
    subst hrun
    rfl
  | cons op ops ih =>
    unfold run at hrun
    cases hstep : step h fuel w op with
    | none => simp [hstep] at hrun
    | some w2 =>
      rw [hstep] at hrun
      have hrest := ih w2 hrun
      rw [hrest]
      cases hlast : lastSetOutputFileName ops with
      | some f => simp [lastSetOutputFileName, hlast]
      | none =>
        simp only [lastSetOutputFileName, hlast, Option.getD_none]
        cases op with
        | StartTracing =>
          simp only [step] at hstep
          injection hstep with hstep
          subst hstep
          exact (StartTracing_fields w).2.2.1
        | EndTracing =>
          simp only [step] at hstep
          injection hstep with hstep
          subst hstep
          exact (EndTracing_fields h w).2.2.1
        | SetOutputFileName f =>
          simp only [step] at hstep
          injection hstep with hstep
          subst hstep
          rfl
        | SetTraceRegisterAndUnregister t =>
          simp only [step] at hstep
          injection hstep with hstep
          subst hstep
          rfl
        | lifecycle e =>
          exact (notify_some_fields fuel w e w2 hstep).2.2.1

/-- C6: after any operations on a freshly created tracer, `EndTracing` writes to the file
named by the most recent `SetOutputFileName`; when there was no such call, to "./trace_"
followed by the date and time taken at creation followed by ".log". -/
theorem C6_EndTracing_writes_to_last_set_file_name (h : Host) (fuel : Nat)
    (dateTime : String) (installed : Option ObserverRef) (ops : List Op) (w : World)
    (hrun : run h fuel (vtkLeakFinder.new dateTime installed) ops = some w) :
    (vtkLeakFinder.EndTracing h w).files.getLast?.map Prod.fst
      = some ((lastSetOutputFileName ops).getD ("./trace_" ++ dateTime ++ ".log")) := by
  have hname := run_m_OutputFileName h fuel _ ops w hrun
  rw [(EndTracing_fields h w).2.2.2.2.2.2.2, List.getLast?_append]
  simp only [List.getLast?_singleton, Option.or_some, Option.map_some', hname]
  rfl

/-- C6 at a concrete input: the file name is set twice, the second time while tracing. -/
theorem C6_EndTracing_writes_to_last_set_file_name_witness :
    run exampleHost 1 (vtkLeakFinder.new "20240101_120000" none)
        [Op.SetOutputFileName "a.log", Op.StartTracing,
          Op.lifecycle (Event.construct 5 ["main\n"]), Op.SetOutputFileName "b.log"]
      = some (vtkLeakFinder.SetOutputFileName
          (own (vtkLeakFinder.StartTracing
              (vtkLeakFinder.SetOutputFileName
                (vtkLeakFinder.new "20240101_120000" none) "a.log"))
            (Event.construct 5 ["main\n"])) "b.log")
    ∧ (vtkLeakFinder.EndTracing exampleHost
        (vtkLeakFinder.SetOutputFileName
          (own (vtkLeakFinder.StartTracing
              (vtkLeakFinder.SetOutputFileName
                (vtkLeakFinder.new "20240101_120000" none) "a.log"))
            (Event.construct 5 ["main\n"])) "b.log")).files.getLast?.map Prod.fst
      = some "b.log" :=
  ⟨by decide,
    C6_EndTracing_writes_to_last_set_file_name exampleHost 1 "20240101_120000" none
      [Op.SetOutputFileName "a.log", Op.StartTracing,
        Op.lifecycle (Event.construct 5 ["main\n"]), Op.SetOutputFileName "b.log"] _
      (by decide)⟩

/-- C7 (fails on the code): with no observer installed before, a registration event for
object 7, whose construction was never observed, creates an entry for 7, and the report
written at `EndTracing` lists object 7. -/
theorem C7_report_lists_object_never_constructed_during_tracing :
    (run exampleHost 1 (vtkLeakFinder.new "20240101_120000" none)
        [Op.StartTracing, Op.lifecycle (Event.register 7 ["f\n"]), Op.EndTracing]).map
      (fun w => (w.m_ObjectTraceEntries.entries, w.files))
    = some ([(7, ["----Register stack trace-----\nf\n"])],
        [("./trace_20240101_120000.log",
          "\n\nPointer: 0x7 (type: vtkObject)\n----Register stack trace-----\nf\n\n\n")]) := by
  decide

/-- C8: when the saved previous observer is not the tracer's own, a destruction event for
`o` returns and removes exactly the entry of `o`: the other entries stay as they were and
in their order, `o` is not tracked afterwards (tracked before or not), and every other
object has the stored traces it had. -/
theorem C8_DestructingObject_removes_exactly_the_entry (fuel : Nat) (w : World) (o : Nat)
    (hold : w.m_OldDebugLeakObserver ≠ some ObserverRef.leakFinder) :
    ∃ w1, DestructingObject (fuel + 1) w o = some w1
      ∧ w1.m_ObjectTraceEntries.entries
        = w.m_ObjectTraceEntries.entries.filter (fun e => decide (e.1 ≠ o))
      ∧ w1.m_ObjectTraceEntries.find o = none
      ∧ o ∉ w1.m_ObjectTraceEntries.keys
      ∧ ∀ k, k ≠ o → w1.m_ObjectTraceEntries.find k = w.m_ObjectTraceEntries.find k := by
  have hentries : ∀ w1, DestructingObject (fuel + 1) w o = some w1 →
      w1.m_ObjectTraceEntries = (w.m_ObjectTraceEntries.subscript o (fun _ => [])).erase o := by
    intro w1 hrun
    unfold DestructingObject at hrun
    simp only at hrun
    split at hrun
    · injection hrun with hrun
      subst hrun
      rfl
    · injection hrun with hrun
      subst hrun
      rfl
    · rename_i heq
      exact absurd heq hold
  have hsome : ∃ w1, DestructingObject (fuel + 1) w o = some w1 := by
    unfold DestructingObject
    simp only
    split
    · exact ⟨_, rfl⟩
    · exact ⟨_, rfl⟩
    · rename_i heq
      exact absurd heq hold
  obtain ⟨w1, hrun⟩ := hsome
  have he := hentries w1 hrun
  refine ⟨w1, hrun, ?_, ?_, ?_, ?_⟩
  · rw [he]
    exact TraceMap.entries_erase_subscript _ _ _
  · rw [he]
    exact TraceMap.find_erase_self _ _
  · rw [TraceMap.mem_keys_iff_find, he, TraceMap.find_erase_self]
    simp
  · intro k hk
    rw [he, TraceMap.find_erase_ne _ _ _ hk, TraceMap.find_subscript_ne _ _ _ _ hk]

/-- C8 at a concrete input: objects 3 and 5 are tracked, 5 is destructed. -/
theorem C8_DestructingObject_removes_exactly_the_entry_witness :
    (ownAll (vtkLeakFinder.StartTracing (vtkLeakFinder.new "20240101_120000" none))
        [Event.construct 5 ["main\n"], Event.construct 3 ["main\n"]]).m_OldDebugLeakObserver
      ≠ some ObserverRef.leakFinder
    ∧ ∃ w1, DestructingObject 1
        (ownAll (vtkLeakFinder.StartTracing (vtkLeakFinder.new "20240101_120000" none))
          [Event.construct 5 ["main\n"], Event.construct 3 ["main\n"]]) 5 = some w1
      ∧ w1.m_ObjectTraceEntries.find 5 = none := by
  refine ⟨by decide, ?_⟩
  obtain ⟨w1, h1, _, h3, _⟩ := C8_DestructingObject_removes_exactly_the_entry 0
    (ownAll (vtkLeakFinder.StartTracing (vtkLeakFinder.new "20240101_120000" none))
      [Event.construct 5 ["main\n"], Event.construct 3 ["main\n"]]) 5 (by decide)
  exact ⟨w1, h1, h3⟩

/-! ## The traces stored for an object -/

theorem ShowCallstack_last (sw : StackWalkerStringOutput) (frames : List String) :
    (sw.ShowCallstack frames).m_LastStackTraceString
      = frames.foldl (fun r s => r ++ s) sw.m_LastStackTraceString := by
  induction frames generalizing sw with
  | nil => rfl
  | cons f rest ih =>
    show ((sw.OnOutput f).ShowCallstack rest).m_LastStackTraceString = _
    rw [ih]
    rfl

/-- Asked on an empty string, the walker hands back the buffers of the walk, joined. -/
theorem walk_from_empty (sw : StackWalkerStringOutput) (frames : List String)
    (hsw : sw.m_LastStackTraceString = "") :
    (sw.ShowCallstack frames).GetLastStackTraceString.1 = String.join frames := by
  show (sw.ShowCallstack frames).m_LastStackTraceString = _
  rw [ShowCallstack_last, hsw]
  rfl

theorem own_walker_empty (w : World) (e : Event)
    (hsw : w.m_StackWalker.m_LastStackTraceString = "") :
    (own w e).m_StackWalker.m_LastStackTraceString = "" := by
  cases e with
  | construct o frames => rfl
  | destruct o => exact hsw
  | register o frames =>
    simp only [own, RegisteringObject]
    split
    · rfl
    · exact hsw
  | unregister o frames =>
    simp only [own, UnregisteringObject]
    split
    · rfl
    · exact hsw

theorem ownAll_walker_empty (w : World) (es : List Event)
    (hsw : w.m_StackWalker.m_LastStackTraceString = "") :
    (ownAll w es).m_StackWalker.m_LastStackTraceString = "" := by
  induction es generalizing w with
  | nil => exact hsw
  | cons e es ih => exact ih (own w e) (own_walker_empty w e hsw)

theorem ownAll_append (w : World) (es1 es2 : List Event) :
    ownAll w (es1 ++ es2) = ownAll (ownAll w es1) es2 := by
  simp [ownAll, List.foldl_append]

/-- What the tracer's own handling of one event does to the traces stored for `o`, when
register/unregister tracing is on and the walker starts from an empty string. -/
theorem find_own (w : World) (e : Event) (o : Nat)
    (hflag : w.m_TraceRegisterAndUnregister = true)
    (hsw : w.m_StackWalker.m_LastStackTraceString = "") :
    (own w e).m_ObjectTraceEntries.find o
      = match e with
        | .construct o1 frames =>
          if o1 = o then some [constructHeader ++ String.join frames]
          else w.m_ObjectTraceEntries.find o
        | .destruct o1 => if o1 = o then none else w.m_ObjectTraceEntries.find o
        | .register o1 frames =>
          if o1 = o then
            some ((w.m_ObjectTraceEntries.find o).getD [] ++ [registerHeader ++ String.join frames])
          else w.m_ObjectTraceEntries.find o
        | .unregister o1 frames =>
          if o1 = o then
            some ((w.m_ObjectTraceEntries.find o).getD []
              ++ [unregisterHeader ++ String.join frames])
          else w.m_ObjectTraceEntries.find o := by
  cases e with
  | construct o1 frames =>
    simp only [own, recordConstruct]
    by_cases h : o1 = o
    · subst h
      simp only [if_true, TraceMap.find_subscript_self, walk_from_empty _ _ hsw,
        List.nil_append]
    · have h2 : o ≠ o1 := fun x => h x.symm
      simp only [h, if_false, TraceMap.find_subscript_ne _ _ _ _ h2]
  | destruct o1 =>
    simp only [own, recordDestruct]
    by_cases h : o1 = o
    · subst h
      simp only [if_true, TraceMap.find_erase_self]
    · have h2 : o ≠ o1 := fun x => h x.symm
      simp only [h, if_false, TraceMap.find_erase_ne _ _ _ h2,
        TraceMap.find_subscript_ne _ _ _ _ h2]
  | register o1 frames =>
    simp only [own, RegisteringObject, hflag, if_true]
    by_cases h : o1 = o
    · subst h
      simp only [if_true, TraceMap.find_subscript_self, walk_from_empty _ _ hsw]
    · have h2 : o ≠ o1 := fun x => h x.symm
      simp only [h, if_false, TraceMap.find_subscript_ne _ _ _ _ h2]
  | unregister o1 frames =>
    simp only [own, UnregisteringObject, hflag, if_true]
    by_cases h : o1 = o
    · subst h
      simp only [if_true, TraceMap.find_subscript_self, walk_from_empty _ _ hsw]
    · have h2 : o ≠ o1 := fun x => h x.symm
      simp only [h, if_false, TraceMap.find_subscript_ne _ _ _ _ h2]

/-- Events that neither construct nor destruct `o` append their traces on `o`, in order. -/
theorem find_ownAll_alive (w : World) (post : List Event) (o : Nat) (v : List String)
    (hflag : w.m_TraceRegisterAndUnregister = true)
    (hsw : w.m_StackWalker.m_LastStackTraceString = "")
    (hv : w.m_ObjectTraceEntries.find o = some v)
    (hpost : ∀ e ∈ post, e.boundsLifeOf o = false) :
    (ownAll w post).m_ObjectTraceEntries.find o
      = some (v ++ post.filterMap (Event.traceOn o)) := by
  induction post generalizing w v with
  | nil => simpa [ownAll] using hv
  | cons e post ih =>
    have he : e.boundsLifeOf o = false := hpost e (List.mem_cons_self _ _)
    have hrest : ∀ e1 ∈ post, e1.boundsLifeOf o = false :=
      fun e1 h1 => hpost e1 (List.mem_cons_of_mem _ h1)
    have hflag1 : (own w e).m_TraceRegisterAndUnregister = true :=
      (own_fields w e).2.2.2.1.trans hflag
    have hsw1 := own_walker_empty w e hsw
    have hfind := find_own w e o hflag hsw
    show (ownAll (own w e) post).m_ObjectTraceEntries.find o = _
    cases e with
    | construct o1 frames =>
      have hne : ¬ o1 = o := by simpa [Event.boundsLifeOf] using he
      simp only [hne, if_false] at hfind
      rw [ih _ v hflag1 hsw1 (hfind.trans hv) hrest]
      simp [Event.traceOn]
    | destruct o1 =>
      have hne : ¬ o1 = o := by simpa [Event.boundsLifeOf] using he
      simp only [hne, if_false] at hfind
      rw [ih _ v hflag1 hsw1 (hfind.trans hv) hrest]
      simp [Event.traceOn]
    | register o1 frames =>
      by_cases h : o1 = o
      · subst h
        simp only [if_true, hv, Option.getD_some] at hfind
        rw [ih _ _ hflag1 hsw1 hfind hrest]
        simp [Event.traceOn]
      · simp only [h, if_false] at hfind
        rw [ih _ v hflag1 hsw1 (hfind.trans hv) hrest]
        simp [Event.traceOn, h]
    | unregister o1 frames =>
      by_cases h : o1 = o
      · subst h
        simp only [if_true, hv, Option.getD_some] at hfind
        rw [ih _ _ hflag1 hsw1 hfind hrest]
        simp [Event.traceOn]
      · simp only [h, if_false] at hfind
        rw [ih _ v hflag1 hsw1 (hfind.trans hv) hrest]
        simp [Event.traceOn, h]


/-- C9: while the tracer's observer is installed with register/unregister tracing on
(the saved previous observer not being the tracer's own, the stack walker's string empty
as every callback leaves it), after a construction of `o` followed by events among which
`o` is neither constructed again nor destructed, the traces stored for `o` are its
construction trace first and then one trace per registration or unregistration event on
`o`, in the order of those events. -/
theorem C9_stored_traces_are_construction_then_later_events (fuel : Nat) (w : World)
    (pre post : List Event) (o : Nat) (frames : List String)
    (hslot : w.DebugLeaksObserver = some ObserverRef.leakFinder)
    (hold : w.m_OldDebugLeakObserver ≠ some ObserverRef.leakFinder)
    (hflag : w.m_TraceRegisterAndUnregister = true)
    (hsw : w.m_StackWalker.m_LastStackTraceString = "")
    (hpost : ∀ e ∈ post, e.boundsLifeOf o = false) :
    ∃ w1, notifyAll (fuel + 1) w (pre ++ Event.construct o frames :: post) = some w1
      ∧ w1.m_ObjectTraceEntries.find o
        = some ((constructHeader ++ String.join frames)
            :: post.filterMap (Event.traceOn o)) := by
  refine ⟨_, notifyAll_installed fuel w _ hslot hold, ?_⟩
  show (ownAll w (pre ++ Event.construct o frames :: post)).m_ObjectTraceEntries.find o = _
  have hsplit : ownAll w (pre ++ Event.construct o frames :: post)
      = ownAll (own (ownAll w pre) (Event.construct o frames)) post := by
    rw [ownAll_append]
    rfl
  have hflag1 : (ownAll w pre).m_TraceRegisterAndUnregister = true :=
    (ownAll_fields w pre).2.2.2.1.trans hflag
  have hsw1 := ownAll_walker_empty w pre hsw
  have hflag2 : (own (ownAll w pre) (Event.construct o frames)).m_TraceRegisterAndUnregister
      = true := (own_fields _ _).2.2.2.1.trans hflag1
  have hsw2 := own_walker_empty (ownAll w pre) (Event.construct o frames) hsw1
  have hfind := find_own (ownAll w pre) (Event.construct o frames) o hflag1 hsw1
  simp only [if_true] at hfind
  rw [hsplit, find_ownAll_alive _ post o _ hflag2 hsw2 hfind hpost]
  rfl

/-- C9 at a concrete input: object 5 is constructed twice; after the second construction
it is registered and unregistered, and object 3 is registered in between. -/
theorem C9_stored_traces_are_construction_then_later_events_witness :
    ∃ w1, notifyAll 1 (vtkLeakFinder.StartTracing (vtkLeakFinder.new "20240101_120000" none))
        ([Event.construct 5 ["old\n"], Event.register 5 ["x\n"]]
          ++ Event.construct 5 ["main\n", "init\n"]
            :: [Event.register 5 ["f\n"], Event.register 3 ["g\n"],
                Event.unregister 5 ["h\n"]]) = some w1
      ∧ w1.m_ObjectTraceEntries.find 5
        = some ((constructHeader ++ String.join ["main\n", "init\n"])
            :: [Event.register 5 ["f\n"], Event.register 3 ["g\n"],
                Event.unregister 5 ["h\n"]].filterMap (Event.traceOn 5)) :=
  C9_stored_traces_are_construction_then_later_events 0
    (vtkLeakFinder.StartTracing (vtkLeakFinder.new "20240101_120000" none))
    [Event.construct 5 ["old\n"], Event.register 5 ["x\n"]]
    [Event.register 5 ["f\n"], Event.register 3 ["g\n"], Event.unregister 5 ["h\n"]]
    5 ["main\n", "init\n"] (by decide) (by decide) (by decide) (by decide) (by decide)

/-- C10: register/unregister tracing is on in a freshly created tracer; after
`SetTraceRegisterAndUnregister(false)` a registration or unregistration callback changes
nothing at all, so the tracked map and the flag stay as they are; while the flag is on,
such a callback on `o` puts exactly one trace at the end of the traces of `o` (an object
without entry starting from none), the trace beginning with the register or unregister
header, and every other object keeps its traces. -/
theorem C10_flag_decides_register_unregister_tracing (dateTime : String)
    (installed : Option ObserverRef) (w : World) (o : Nat) (frames : List String) :
    (vtkLeakFinder.new dateTime installed).m_TraceRegisterAndUnregister = true
    ∧ (vtkLeakFinder.SetTraceRegisterAndUnregister w false).m_ObjectTraceEntries
        = w.m_ObjectTraceEntries
    ∧ RegisteringObject (vtkLeakFinder.SetTraceRegisterAndUnregister w false) o frames
        = vtkLeakFinder.SetTraceRegisterAndUnregister w false
    ∧ UnregisteringObject (vtkLeakFinder.SetTraceRegisterAndUnregister w false) o frames
        = vtkLeakFinder.SetTraceRegisterAndUnregister w false
    ∧ (w.m_TraceRegisterAndUnregister = true →
        (∃ rest, (RegisteringObject w o frames).m_ObjectTraceEntries.find o
            = some ((w.m_ObjectTraceEntries.find o).getD []
                ++ ["----Register stack trace-----\n" ++ rest]))
        ∧ (∃ rest, (UnregisteringObject w o frames).m_ObjectTraceEntries.find o
            = some ((w.m_ObjectTraceEntries.find o).getD []
                ++ ["----Unregister stack trace---\n" ++ rest]))
        ∧ ∀ k, k ≠ o →
            (RegisteringObject w o frames).m_ObjectTraceEntries.find k
              = w.m_ObjectTraceEntries.find k
            ∧ (UnregisteringObject w o frames).m_ObjectTraceEntries.find k
              = w.m_ObjectTraceEntries.find k) := by
  refine ⟨rfl, rfl, rfl, rfl, ?_⟩
  intro hflag
  refine ⟨⟨(w.m_StackWalker.ShowCallstack frames).GetLastStackTraceString.1, ?_⟩,
    ⟨(w.m_StackWalker.ShowCallstack frames).GetLastStackTraceString.1, ?_⟩, ?_⟩
  · simp only [RegisteringObject, hflag, if_true, TraceMap.find_subscript_self]
    rfl
  · simp only [UnregisteringObject, hflag, if_true, TraceMap.find_subscript_self]
    rfl
  · intro k hk
    constructor
    · simp only [RegisteringObject, hflag, if_true, TraceMap.find_subscript_ne _ _ _ _ hk]
    · simp only [UnregisteringObject, hflag, if_true, TraceMap.find_subscript_ne _ _ _ _ hk]

/-- C10 at a concrete input: object 5 is tracked with its construction trace and the flag
is on; a registration puts one trace behind the construction trace. -/
theorem C10_flag_decides_register_unregister_tracing_witness :
    (own (vtkLeakFinder.StartTracing (vtkLeakFinder.new "20240101_120000" none))
        (Event.construct 5 ["main\n"])).m_TraceRegisterAndUnregister = true
    ∧ ∃ rest, (RegisteringObject
          (own (vtkLeakFinder.StartTracing (vtkLeakFinder.new "20240101_120000" none))
            (Event.construct 5 ["main\n"])) 5 ["f\n"]).m_ObjectTraceEntries.find 5
        = some (((own (vtkLeakFinder.StartTracing (vtkLeakFinder.new "20240101_120000" none))
            (Event.construct 5 ["main\n"])).m_ObjectTraceEntries.find 5).getD []
            ++ ["----Register stack trace-----\n" ++ rest]) :=
  ⟨by decide,
    ((C10_flag_decides_register_unregister_tracing "20240101_120000" none
      (own (vtkLeakFinder.StartTracing (vtkLeakFinder.new "20240101_120000" none))
        (Event.construct 5 ["main\n"])) 5 ["f\n"]).2.2.2.2 (by decide)).1⟩

/-! ## Forwarding to the saved previous observer -/

/-- C11 (as stated, fails on the code): while tracing with observer 1 saved as previous
observer, a registration event for object 5 is handled by the tracer and observer 1
receives no callback at all. -/
theorem C11_registration_is_not_forwarded :
    (notify 1
        (vtkLeakFinder.StartTracing
          (vtkLeakFinder.new "20240101_120000" (some (ObserverRef.other 1))))
        (Event.register 5 ["f\n"])).map
      (fun w => (w.m_OldDebugLeakObserver, w.m_ObjectTraceEntries.entries, w.received))
    = some (some (ObserverRef.other 1), [(5, ["----Register stack trace-----\nf\n"])], []) := by
  decide

/-- C11 (amended): with another observer `p` saved as previous observer, a construction
callback and a destruction callback return and are each forwarded exactly once, with the
same object, to `p`; a registration or unregistration callback is not forwarded, `p`
receives nothing. -/
theorem C11_construction_and_destruction_forwarded_once (fuel : Nat) (w : World) (p o : Nat)
    (frames : List String)
    (hold : w.m_OldDebugLeakObserver = some (ObserverRef.other p)) :
    (∃ w1, ConstructingObject (fuel + 1) w o frames = some w1
      ∧ w1.received = w.received ++ [(p, Callback.ConstructingObject o)])
    ∧ (∃ w1, DestructingObject (fuel + 1) w o = some w1
      ∧ w1.received = w.received ++ [(p, Callback.DestructingObject o)])
    ∧ (RegisteringObject w o frames).received = w.received
    ∧ (UnregisteringObject w o frames).received = w.received := by
  refine ⟨?_, ?_, ?_, ?_⟩
  · have hrec : (recordConstruct w o frames).m_OldDebugLeakObserver
        = some (ObserverRef.other p) := hold
    refine ⟨{ recordConstruct w o frames with
        received := (recordConstruct w o frames).received
          ++ [(p, Callback.ConstructingObject o)] }, ?_, rfl⟩
    unfold ConstructingObject
    simp only [hrec]
  · have hrec : (recordDestruct w o).m_OldDebugLeakObserver
        = some (ObserverRef.other p) := hold
    refine ⟨{ recordDestruct w o with
        received := (recordDestruct w o).received ++ [(p, Callback.DestructingObject o)] },
      ?_, rfl⟩
    unfold DestructingObject
    simp only [hrec]
  · exact (own_fields w (Event.register o frames)).2.2.2.2.2
  · exact (own_fields w (Event.unregister o frames)).2.2.2.2.2

/-- C11 (amended) at a concrete input: observer 1 is the saved previous observer and
object 5 is constructed. -/
theorem C11_construction_and_destruction_forwarded_once_witness :
    (vtkLeakFinder.StartTracing
        (vtkLeakFinder.new "20240101_120000" (some (ObserverRef.other 1)))).m_OldDebugLeakObserver
      = some (ObserverRef.other 1)
    ∧ ∃ w1, ConstructingObject 1
        (vtkLeakFinder.StartTracing
          (vtkLeakFinder.new "20240101_120000" (some (ObserverRef.other 1)))) 5 ["main\n"]
        = some w1
      ∧ w1.received
        = (vtkLeakFinder.StartTracing
            (vtkLeakFinder.new "20240101_120000" (some (ObserverRef.other 1)))).received
          ++ [(1, Callback.ConstructingObject 5)] :=
  ⟨by decide,
    (C11_construction_and_destruction_forwarded_once 0
      (vtkLeakFinder.StartTracing
        (vtkLeakFinder.new "20240101_120000" (some (ObserverRef.other 1)))) 1 5 ["main\n"]
      (by decide)).1⟩

/-! ## Starting a trace twice -/

/-- When the saved previous observer is the tracer's own, the construction callback calls
itself without end: no amount of fuel lets it return. -/
theorem ConstructingObject_self_forwarding (fuel : Nat) (w : World) (o : Nat)
    (frames : List String)
    (hold : w.m_OldDebugLeakObserver = some ObserverRef.leakFinder) :
    ConstructingObject fuel w o frames = none := by
  induction fuel generalizing w with
  | zero => rfl
  | succ fuel ih =>
    have hrec : (recordConstruct w o frames).m_OldDebugLeakObserver
        = some ObserverRef.leakFinder := hold
    unfold ConstructingObject
    simp only [hrec]
    exact ih _ hrec

/-- The same for the destruction callback. -/
theorem DestructingObject_self_forwarding (fuel : Nat) (w : World) (o : Nat)
    (hold : w.m_OldDebugLeakObserver = some ObserverRef.leakFinder) :
    DestructingObject fuel w o = none := by
  induction fuel generalizing w with
  | zero => rfl
  | succ fuel ih =>
    have hrec : (recordDestruct w o).m_OldDebugLeakObserver
        = some ObserverRef.leakFinder := hold
    unfold DestructingObject
    simp only [hrec]
    exact ih _ hrec

/-- C14 (fails on the code): on a freshly created tracer, whatever was installed before,
two `StartTracing` in a row leave the tracer's own observer both in the slot and as saved
previous observer, and from then on handling a construction or destruction event never
returns, whatever the fuel. -/
theorem C14_second_StartTracing_saves_own_observer (dateTime : String)
    (installed : Option ObserverRef) (fuel o : Nat) (frames : List String) :
    (vtkLeakFinder.StartTracing (vtkLeakFinder.StartTracing
        (vtkLeakFinder.new dateTime installed))).m_OldDebugLeakObserver
      = some ObserverRef.leakFinder
    ∧ (vtkLeakFinder.StartTracing (vtkLeakFinder.StartTracing
        (vtkLeakFinder.new dateTime installed))).DebugLeaksObserver
      = some ObserverRef.leakFinder
    ∧ notify fuel (vtkLeakFinder.StartTracing (vtkLeakFinder.StartTracing
        (vtkLeakFinder.new dateTime installed))) (Event.construct o frames) = none
    ∧ notify fuel (vtkLeakFinder.StartTracing (vtkLeakFinder.StartTracing
        (vtkLeakFinder.new dateTime installed))) (Event.destruct o) = none :=
  ⟨rfl, rfl, ConstructingObject_self_forwarding fuel _ o frames rfl,
    DestructingObject_self_forwarding fuel _ o rfl⟩

/-! ## Ending a trace that was not started -/

/-- Without a `StartTracing` among the operations, a tracer that holds no saved observer
still holds none afterwards. -/
theorem run_without_StartTracing (h : Host) (fuel : Nat) (w : World) (ops : List Op)
    (w1 : World) (hold : w.m_OldDebugLeakObserver = none) (hns : Op.StartTracing ∉ ops)
    (hrun : run h fuel w ops = some w1) : w1.m_OldDebugLeakObserver = none := by
  induction ops generalizing w with
  | nil =>
    simp only [run] at hrun
    injection hrun with hrun
    subst hrun
    exact hold
  | cons op ops ih =>
    have hne : op ≠ Op.StartTracing := fun x => hns (x ▸ List.mem_cons_self _ _)
    have hrest : Op.StartTracing ∉ ops := fun x => hns (List.mem_cons_of_mem _ x)
    unfold run at hrun
    cases hstep : step h fuel w op with
    | none => simp [hstep] at hrun
    | some w2 =>
      rw [hstep] at hrun
      refine ih w2 ?_ hrest hrun
      cases op with
      | StartTracing => exact absurd rfl hne
      | EndTracing =>
        simp only [step] at hstep
        injection hstep with hstep
        subst hstep
        exact (EndTracing_fields h w).2.1
      | SetOutputFileName f =>
        simp only [step] at hstep
        injection hstep with hstep
        subst hstep
        exact hold
      | SetTraceRegisterAndUnregister t =>
        simp only [step] at hstep
        injection hstep with hstep
        subst hstep
        exact hold
      | lifecycle e => exact (notify_some_fields fuel w e w2 hstep).1.trans hold

/-- C15: `EndTracing` in any state `v` puts the saved previous observer of `v` in the
observer slot and leaves the tracer without saved observer; so when the tracer was just
created or just went through an `EndTracing`, and operations without any `StartTracing`
follow, a further `EndTracing` leaves the slot empty, whatever it held. -/
theorem C15_EndTracing_installs_saved_observer_and_clears_it (h : Host) (fuel : Nat)
    (dateTime : String) (installed : Option ObserverRef) (v start : World)
    (ops : List Op) (w : World)
    (hstart : start = vtkLeakFinder.new dateTime installed
      ∨ start = vtkLeakFinder.EndTracing h v)
    (hns : Op.StartTracing ∉ ops) (hrun : run h fuel start ops = some w) :
    (vtkLeakFinder.EndTracing h v).DebugLeaksObserver = v.m_OldDebugLeakObserver
    ∧ (vtkLeakFinder.EndTracing h v).m_OldDebugLeakObserver = none
    ∧ (vtkLeakFinder.EndTracing h w).DebugLeaksObserver = none := by
  have hv := EndTracing_fields h v
  refine ⟨hv.1, hv.2.1, ?_⟩
  have hstartold : start.m_OldDebugLeakObserver = none := by
    rcases hstart with hs | hs
    · rw [hs]
      rfl
    · rw [hs]
      exact hv.2.1
  rw [(EndTracing_fields h w).1]
  exact run_without_StartTracing h fuel start ops w hstartold hns hrun

/-- C15 at a concrete input: observer 1 is installed when the tracer is created, object 5
is constructed (observer 1 gets the event), and `EndTracing` without `StartTracing`
empties the slot. -/
theorem C15_EndTracing_installs_saved_observer_and_clears_it_witness :
    run exampleHost 1 (vtkLeakFinder.new "20240101_120000" (some (ObserverRef.other 1)))
        [Op.lifecycle (Event.construct 5 ["main\n"])]
      = some { vtkLeakFinder.new "20240101_120000" (some (ObserverRef.other 1)) with
          received := [(1, Callback.ConstructingObject 5)] }
    ∧ (vtkLeakFinder.EndTracing exampleHost
        { vtkLeakFinder.new "20240101_120000" (some (ObserverRef.other 1)) with
          received := [(1, Callback.ConstructingObject 5)] }).DebugLeaksObserver = none :=
  ⟨by decide,
    (C15_EndTracing_installs_saved_observer_and_clears_it exampleHost 1 "20240101_120000"
      (some (ObserverRef.other 1))
      (vtkLeakFinder.new "20240101_120000" (some (ObserverRef.other 1)))
      (vtkLeakFinder.new "20240101_120000" (some (ObserverRef.other 1)))
      [Op.lifecycle (Event.construct 5 ["main\n"])] _
      (Or.inl rfl) (by decide) (by decide)).2.2⟩

/-! ## What lifecycle events and the two setters leave unchanged -/

/-- C16: when the saved previous observer is not the tracer's own, handling a lifecycle
event returns and leaves the saved previous observer, the output file name, the
register/unregister flag, the observer slot and the files unchanged, and the stack walker
too when its string was empty, so that among the tracer's members only the tracked map
changes; whenever handling an event returns at all, the saved previous observer, the file
name and the flag are unchanged; `SetOutputFileName` and `SetTraceRegisterAndUnregister`
each change their own member and nothing else. -/
theorem C16_events_and_setters_change_only_their_part (fuel : Nat) (w : World) (e : Event)
    (fileName : String) (trace : Bool)
    (hold : w.m_OldDebugLeakObserver ≠ some ObserverRef.leakFinder) :
    (∃ w1, notify (fuel + 1) w e = some w1
      ∧ w1.m_OldDebugLeakObserver = w.m_OldDebugLeakObserver
      ∧ w1.m_OutputFileName = w.m_OutputFileName
      ∧ w1.m_TraceRegisterAndUnregister = w.m_TraceRegisterAndUnregister
      ∧ w1.DebugLeaksObserver = w.DebugLeaksObserver
      ∧ w1.files = w.files
      ∧ (w.m_StackWalker.m_LastStackTraceString = "" → w1.m_StackWalker = w.m_StackWalker))
    ∧ (∀ (fuel2 : Nat) (w2 : World), notify fuel2 w e = some w2 →
        w2.m_OldDebugLeakObserver = w.m_OldDebugLeakObserver
        ∧ w2.m_OutputFileName = w.m_OutputFileName
        ∧ w2.m_TraceRegisterAndUnregister = w.m_TraceRegisterAndUnregister)
    ∧ vtkLeakFinderObserver.SetOutputFileName w fileName
        = { w with m_OutputFileName := fileName }
    ∧ vtkLeakFinderObserver.SetTraceRegisterAndUnregister w trace
        = { w with m_TraceRegisterAndUnregister := trace } := by
  refine ⟨?_, ?_, rfl, rfl⟩
  · have hsome : ∃ w1, notify (fuel + 1) w e = some w1
        ∧ w1.m_StackWalker = (own w e).m_StackWalker
          ∨ notify (fuel + 1) w e = some w1 ∧ w1.m_StackWalker = w.m_StackWalker := by
      cases hw : w.DebugLeaksObserver with
      | none => exact ⟨_, Or.inr ⟨notify_none _ w e hw, rfl⟩⟩
      | some r =>
        cases r with
        | leakFinder => exact ⟨_, Or.inl ⟨notify_installed fuel w e hw hold, rfl⟩⟩
        | other p => exact ⟨_, Or.inr ⟨notify_other _ w e p hw, rfl⟩⟩
    obtain ⟨w1, hcase⟩ := hsome
    have hrun : notify (fuel + 1) w e = some w1 := by
      rcases hcase with hc | hc
      · exact hc.1
      · exact hc.1
    have hf := notify_some_fields (fuel + 1) w e w1 hrun
    refine ⟨w1, hrun, hf.1, hf.2.2.1, hf.2.2.2.1, hf.2.1, hf.2.2.2.2, ?_⟩
    intro hsw
    rcases hcase with hc | hc
    · rw [hc.2]
      have hown := own_walker_empty w e hsw
      cases hsw1 : (own w e).m_StackWalker with
      | mk s1 =>
        cases hsw0 : w.m_StackWalker with
        | mk s0 =>
          rw [hsw1] at hown
          rw [hsw0] at hsw
          simp only at hown hsw
          rw [hown, hsw]
    · exact hc.2
  · intro fuel2 w2 hrun
    have hf := notify_some_fields fuel2 w e w2 hrun
    exact ⟨hf.1, hf.2.2.1, hf.2.2.2.1⟩

/-- C16 at a concrete input: while tracing with observer 1 saved, object 5 is constructed. -/
theorem C16_events_and_setters_change_only_their_part_witness :
    (vtkLeakFinder.StartTracing
        (vtkLeakFinder.new "20240101_120000" (some (ObserverRef.other 1)))).m_OldDebugLeakObserver
      ≠ some ObserverRef.leakFinder
    ∧ ∃ w1, notify 1
        (vtkLeakFinder.StartTracing
          (vtkLeakFinder.new "20240101_120000" (some (ObserverRef.other 1))))
        (Event.construct 5 ["main\n"]) = some w1
      ∧ w1.m_OldDebugLeakObserver = some (ObserverRef.other 1)
      ∧ w1.m_OutputFileName = "./trace_20240101_120000.log" := by
  refine ⟨by decide, ?_⟩
  obtain ⟨w1, h1, h2, h3, _⟩ := (C16_events_and_setters_change_only_their_part 0
    (vtkLeakFinder.StartTracing
      (vtkLeakFinder.new "20240101_120000" (some (ObserverRef.other 1))))
    (Event.construct 5 ["main\n"]) "a.log" false (by decide)).1
  exact ⟨w1, h1, h2, h3⟩

/-! ## Every stored trace begins with a header -/

theorem HasHeader_ne_empty (t : String) (ht : HasHeader t) : t ≠ "" := by
  intro hempty
  have hlen : t.length = 0 := by rw [hempty]; rfl
  obtain ⟨rest, hrest | hrest | hrest⟩ := ht
  · rw [hrest, String.length_append] at hlen
    have : constructHeader.length = 30 := by decide
    omega
  · rw [hrest, String.length_append] at hlen
    have : registerHeader.length = 30 := by decide
    omega
  · rw [hrest, String.length_append] at hlen
    have : unregisterHeader.length = 30 := by decide
    omega

theorem mem_rawSubscript (l : List (Nat × List String)) (o : Nat)
    (f : List String → List String) (e : Nat × List String)
    (he : e ∈ rawSubscript l o f) :
    e ∈ l ∨ e = (o, f []) ∨ ∃ v, (o, v) ∈ l ∧ e = (o, f v) := by
  induction l with
  | nil =>
    simp only [rawSubscript, List.mem_singleton] at he
    exact Or.inr (Or.inl he)
  | cons e1 rest ih =>
    obtain ⟨k, v⟩ := e1
    unfold rawSubscript at he
    by_cases h1 : o < k
    · simp only [h1, if_true, List.mem_cons] at he
      rcases he with he | he | he
      · exact Or.inr (Or.inl he)
      · exact Or.inl (he ▸ List.mem_cons_self _ _)
      · exact Or.inl (List.mem_cons_of_mem _ he)
    · by_cases h2 : o = k
      · subst h2
        simp only [lt_self_iff_false, if_false, if_true, List.mem_cons] at he
        rcases he with he | he
        · exact Or.inr (Or.inr ⟨v, List.mem_cons_self _ _, he⟩)
        · exact Or.inl (List.mem_cons_of_mem _ he)
      · simp only [h1, h2, if_false, List.mem_cons] at he
        rcases he with he | he
        · exact Or.inl (he ▸ List.mem_cons_self _ _)
        · rcases ih he with h3 | h3 | ⟨v1, h3, h4⟩
          · exact Or.inl (List.mem_cons_of_mem _ h3)
          · exact Or.inr (Or.inl h3)
          · exact Or.inr (Or.inr ⟨v1, List.mem_cons_of_mem _ h3, h4⟩)

/-- Using `m[o]` keeps the headers when what is done to the vector keeps them. -/
theorem Headed_subscript (m : TraceMap) (o : Nat) (f : List String → List String)
    (hm : Headed m)
    (hf : ∀ v, (∀ t ∈ v, HasHeader t) → ∀ t ∈ f v, HasHeader t) :
    Headed (m.subscript o f) := by
  intro e he t ht
  rcases mem_rawSubscript m.1 o f e he with h1 | h1 | ⟨v, h1, h2⟩
  · exact hm e h1 t ht
  · rw [h1] at ht
    exact hf [] (fun t1 h3 => absurd h3 (List.not_mem_nil t1)) t ht
  · rw [h2] at ht
    exact hf v (fun t1 h3 => hm (o, v) h1 t1 h3) t ht

theorem Headed_erase (m : TraceMap) (o : Nat) (hm : Headed m) : Headed (m.erase o) := by
  intro e he t ht
  exact hm e (List.mem_of_mem_filter he) t ht

/-- The tracer's own handling of an event keeps the headers. -/
theorem Headed_own (w : World) (e : Event) (hw : Headed w.m_ObjectTraceEntries) :
    Headed (own w e).m_ObjectTraceEntries := by
  cases e with
  | construct o frames =>
    refine Headed_subscript _ o _ hw ?_
    intro v _ t ht
    simp only [List.nil_append, List.mem_singleton] at ht
    exact ⟨_, Or.inl ht⟩
  | destruct o =>
    refine Headed_erase _ o (Headed_subscript _ o _ hw ?_)
    intro v _ t ht
    exact absurd ht (List.not_mem_nil t)
  | register o frames =>
    simp only [own, RegisteringObject]
    split
    · refine Headed_subscript _ o _ hw ?_
      intro v hv t ht
      rcases List.mem_append.1 ht with h1 | h1
      · exact hv t h1
      · exact ⟨_, Or.inr (Or.inl (List.mem_singleton.1 h1))⟩
    · exact hw
  | unregister o frames =>
    simp only [own, UnregisteringObject]
    split
    · refine Headed_subscript _ o _ hw ?_
      intro v hv t ht
      rcases List.mem_append.1 ht with h1 | h1
      · exact hv t h1
      · exact ⟨_, Or.inr (Or.inr (List.mem_singleton.1 h1))⟩
    · exact hw

theorem Headed_ConstructingObject (fuel : Nat) (w : World) (o : Nat) (frames : List String)
    (w1 : World) (hw : Headed w.m_ObjectTraceEntries)
    (hrun : ConstructingObject fuel w o frames = some w1) :
    Headed w1.m_ObjectTraceEntries := by
  induction fuel generalizing w with
  | zero => simp [ConstructingObject] at hrun
  | succ fuel ih =>
    have hrec : Headed (recordConstruct w o frames).m_ObjectTraceEntries :=
      Headed_own w (Event.construct o frames) hw
    unfold ConstructingObject at hrun
    simp only at hrun
    split at hrun
    · injection hrun with hrun
      subst hrun
      exact hrec
    · injection hrun with hrun
      subst hrun
      exact hrec
    · exact ih _ hrec hrun

theorem Headed_DestructingObject (fuel : Nat) (w : World) (o : Nat) (w1 : World)
    (hw : Headed w.m_ObjectTraceEntries) (hrun : DestructingObject fuel w o = some w1) :
    Headed w1.m_ObjectTraceEntries := by
  induction fuel generalizing w with
  | zero => simp [DestructingObject] at hrun
  | succ fuel ih =>
    have hrec : Headed (recordDestruct w o).m_ObjectTraceEntries :=
      Headed_own w (Event.destruct o) hw
    unfold DestructingObject at hrun
    simp only at hrun
    split at hrun
    · injection hrun with hrun
      subst hrun
      exact hrec
    · injection hrun with hrun
      subst hrun
      exact hrec
    · exact ih _ hrec hrun

theorem Headed_notify (fuel : Nat) (w : World) (e : Event) (w1 : World)
    (hw : Headed w.m_ObjectTraceEntries) (hrun : notify fuel w e = some w1) :
    Headed w1.m_ObjectTraceEntries := by
  unfold notify at hrun
  split at hrun
  · injection hrun with hrun
    subst hrun
    exact hw
  · injection hrun with hrun
    subst hrun
    exact hw
  · cases e with
    | construct o frames => exact Headed_ConstructingObject fuel w o frames w1 hw hrun
    | destruct o => exact Headed_DestructingObject fuel w o w1 hw hrun
    | register o frames =>
      injection hrun with hrun
      subst hrun
      exact Headed_own w (Event.register o frames) hw
    | unregister o frames =>
      injection hrun with hrun
      subst hrun
      exact Headed_own w (Event.unregister o frames) hw

theorem Headed_run (h : Host) (fuel : Nat) (w : World) (ops : List Op) (w1 : World)
    (hw : Headed w.m_ObjectTraceEntries) (hrun : run h fuel w ops = some w1) :
    Headed w1.m_ObjectTraceEntries := by
  induction ops generalizing w with
  | nil =>
    simp only [run] at hrun
    injection hrun with hrun
    subst hrun
    exact hw
  | cons op ops ih =>
    unfold run at hrun
    cases hstep : step h fuel w op with
    | none => simp [hstep] at hrun
    | some w2 =>
      rw [hstep] at hrun
      refine ih w2 ?_ hrun
      cases op with
      | StartTracing =>
        simp only [step] at hstep
        injection hstep with hstep
        subst hstep
        rw [(StartTracing_fields w).2.2.2.2.2.2.1]
        exact hw
      | EndTracing =>
        simp only [step] at hstep
        injection hstep with hstep
        subst hstep
        rw [(EndTracing_fields h w).2.2.2.2.2.1]
        exact hw
      | SetOutputFileName f =>
        simp only [step] at hstep
        injection hstep with hstep
        subst hstep
        exact hw
      | SetTraceRegisterAndUnregister t =>
        simp only [step] at hstep
        injection hstep with hstep
        subst hstep
        exact hw
      | lifecycle e => exact Headed_notify fuel w e w2 hw hstep

/-- C17: in every state a freshly created tracer reaches through any operations
(lifecycle events, starting and ending a trace, the two setters), every trace stored in
the tracked map begins with one of the three fixed headers followed by a line break, and
is not the empty string, whatever the stack walker produced (nothing included). -/
theorem C17_stored_traces_begin_with_a_header (h : Host) (fuel : Nat) (dateTime : String)
    (installed : Option ObserverRef) (ops : List Op) (w : World)
    (hrun : run h fuel (vtkLeakFinder.new dateTime installed) ops = some w) :
    ∀ e ∈ w.m_ObjectTraceEntries.entries, ∀ t ∈ e.2,
      (∃ rest, t = "----Construct stack trace----\n" ++ rest
        ∨ t = "----Register stack trace-----\n" ++ rest
        ∨ t = "----Unregister stack trace---\n" ++ rest)
      ∧ t ≠ "" := by
  have hinit : Headed (vtkLeakFinder.new dateTime installed).m_ObjectTraceEntries := by
    intro e he
    exact absurd he (List.not_mem_nil e)
  have hw := Headed_run h fuel _ ops w hinit hrun
  exact fun e he t ht => ⟨hw e he t ht, HasHeader_ne_empty t (hw e he t ht)⟩

/-- C17 at a concrete input: object 5 is constructed with an empty walk and registered. -/
theorem C17_stored_traces_begin_with_a_header_witness :
    run exampleHost 1 (vtkLeakFinder.new "20240101_120000" none)
        [Op.StartTracing, Op.lifecycle (Event.construct 5 []),
          Op.lifecycle (Event.register 5 ["f\n"])]
      = some (ownAll (vtkLeakFinder.StartTracing (vtkLeakFinder.new "20240101_120000" none))
          [Event.construct 5 [], Event.register 5 ["f\n"]])
    ∧ ∀ e ∈ (ownAll (vtkLeakFinder.StartTracing (vtkLeakFinder.new "20240101_120000" none))
          [Event.construct 5 [], Event.register 5 ["f\n"]]).m_ObjectTraceEntries.entries,
        ∀ t ∈ e.2,
          (∃ rest, t = "----Construct stack trace----\n" ++ rest
            ∨ t = "----Register stack trace-----\n" ++ rest
            ∨ t = "----Unregister stack trace---\n" ++ rest)
          ∧ t ≠ "" :=
  ⟨by decide,
    (C17_stored_traces_begin_with_a_header exampleHost 1 "20240101_120000" none
      [Op.StartTracing, Op.lifecycle (Event.construct 5 []),
        Op.lifecycle (Event.register 5 ["f\n"])] _ (by decide))⟩

end LeakFinder

/-! ## The argument check of the test driver -/

namespace ExternalBeamPlanning

/-- C13: the argument part of the test driver fails with "Invalid arguments!" exactly when
there are at most two arguments, or when the second one is `-TestSceneFile` for the
comparison ignoring case and there are at most four; every failure carries that message;
in every other case the driver goes on, the test scene file name being the third argument
after a `-TestSceneFile` flag and the empty string otherwise, the temporary scene file
name being the argument after a `-TemporarySceneFile` flag found at the current position
and the empty string otherwise. -/
theorem C13_argument_check_fails_exactly_on_too_few_arguments
    (strcasecmp : String → String → Int) (argv : List String) :
    (vtkSlicerExternalBeamPlanningModuleLogicTest1 strcasecmp argv
        = Except.error "Invalid arguments!\n"
      ↔ (argv.length ≤ 2
        ∨ (strcasecmp (argv.getD 1 "") "-TestSceneFile" = 0 ∧ argv.length ≤ 4)))
    ∧ (∀ msg, vtkSlicerExternalBeamPlanningModuleLogicTest1 strcasecmp argv
        = Except.error msg → msg = "Invalid arguments!\n")
    ∧ (¬ (argv.length ≤ 2
          ∨ (strcasecmp (argv.getD 1 "") "-TestSceneFile" = 0 ∧ argv.length ≤ 4)) →
        ∃ a, vtkSlicerExternalBeamPlanningModuleLogicTest1 strcasecmp argv = Except.ok a
          ∧ a.testSceneFileName
            = (if strcasecmp (argv.getD 1 "") "-TestSceneFile" = 0 then argv.getD 2 ""
                else "")
          ∧ a.temporarySceneFileName
            = (if strcasecmp (argv.getD 1 "") "-TestSceneFile" = 0 then
                (if strcasecmp (argv.getD 3 "") "-TemporarySceneFile" = 0 then
                  argv.getD 4 "" else "")
              else
                (if strcasecmp (argv.getD 1 "") "-TemporarySceneFile" = 0 then
                  argv.getD 2 "" else ""))) := by
  unfold vtkSlicerExternalBeamPlanningModuleLogicTest1
  by_cases h1 : argv.length > 1 + 1
  · by_cases h2 : strcasecmp (argv.getD 1 "") "-TestSceneFile" = 0
    · by_cases h3 : argv.length > 1 + 2 + 1
      · by_cases h4 : strcasecmp (argv.getD (1 + 2) "") "-TemporarySceneFile" = 0
        · rw [if_pos h1, if_pos h2]
          simp only []
          rw [if_pos h3, if_pos h4, if_pos h4]
          refine ⟨⟨fun h => ?_, fun h => ?_⟩, fun msg h => ?_, fun _ => ⟨_, rfl, ?_, ?_⟩⟩
          · cases h
          · omega
          · cases h
          · rw [if_pos h2]
          · rw [if_pos h2]
        · rw [if_pos h1, if_pos h2]
          simp only []
          rw [if_pos h3, if_neg h4, if_neg h4]
          refine ⟨⟨fun h => ?_, fun h => ?_⟩, fun msg h => ?_, fun _ => ⟨_, rfl, ?_, ?_⟩⟩
          · cases h
          · omega
          · cases h
          · rw [if_pos h2]
          · rw [if_pos h2]
      · rw [if_pos h1, if_pos h2]
        simp only []
        rw [if_neg h3]
        refine ⟨⟨fun _ => Or.inr ⟨h2, by omega⟩, fun _ => rfl⟩, fun msg h => ?_, fun h => ?_⟩
        · injection h with h
          exact h.symm
        · exact absurd (Or.inr ⟨h2, by omega⟩) h
    · by_cases h4 : strcasecmp (argv.getD 1 "") "-TemporarySceneFile" = 0
      · rw [if_pos h1, if_neg h2]
        simp only []
        rw [if_pos h1, if_pos h4, if_pos h4]
        refine ⟨⟨fun h => ?_, fun h => ?_⟩, fun msg h => ?_, fun _ => ⟨_, rfl, ?_, ?_⟩⟩
        · cases h
        · omega
        · cases h
        · rw [if_neg h2]
        · rw [if_neg h2]
      · rw [if_pos h1, if_neg h2]
        simp only []
        rw [if_pos h1, if_neg h4, if_neg h4]
        refine ⟨⟨fun h => ?_, fun h => ?_⟩, fun msg h => ?_, fun _ => ⟨_, rfl, ?_, ?_⟩⟩
        · cases h
        · omega
        · cases h
        · rw [if_neg h2]
        · rw [if_neg h2]
  · rw [if_neg h1]
    refine ⟨⟨fun _ => Or.inl (by omega), fun _ => rfl⟩, fun msg h => ?_, fun h => ?_⟩
    · injection h with h
      exact h.symm
    · exact absurd (Or.inl (by omega)) h

/-- C13 at concrete inputs, with the comparison ignoring case of ASCII letters: a flag in
lower case with both files passes, a `-TestSceneFile` flag with four arguments fails, an
unknown flag gives empty file names. -/
theorem C13_argument_check_fails_exactly_on_too_few_arguments_witness :
    vtkSlicerExternalBeamPlanningModuleLogicTest1 STRCASECMP
        ["test", "-testscenefile", "a.mrml", "-TemporarySceneFile", "b.mrml"]
      = Except.ok (Arguments.mk "a.mrml" "b.mrml"
          "Test MRML scene file name: a.mrml\nTemporary scene file name: b.mrml\n")
    ∧ vtkSlicerExternalBeamPlanningModuleLogicTest1 STRCASECMP
        ["test", "-Foo", "a.mrml"] = Except.ok (Arguments.mk "" "" "")
    ∧ (vtkSlicerExternalBeamPlanningModuleLogicTest1 STRCASECMP
          ["test", "-TestSceneFile", "a.mrml", "x"] = Except.error "Invalid arguments!\n"
        ↔ (["test", "-TestSceneFile", "a.mrml", "x"].length ≤ 2
          ∨ (STRCASECMP (["test", "-TestSceneFile", "a.mrml", "x"].getD 1 "")
              "-TestSceneFile" = 0
            ∧ ["test", "-TestSceneFile", "a.mrml", "x"].length ≤ 4))) :=
  ⟨rfl, rfl,
    (C13_argument_check_fails_exactly_on_too_few_arguments STRCASECMP
      ["test", "-TestSceneFile", "a.mrml", "x"]).1⟩

end ExternalBeamPlanning
